import Mathlib

/-!
Verification of the layered import-alias resolution map of
`packages/next-swc/crates/next-core/src/next_import_map.rs`.

The insertion passes (`get_next_client_import_map`, `get_next_server_import_map`,
`get_next_edge_import_map`, `insert_next_shared_aliases`,
`insert_next_server_special_aliases`, `insert_alias_option`, ...) are translated
from the source file.  The storage/lookup primitive (`ImportMap` with
`insert_exact_alias` / `insert_wildcard_alias` / lookup) and the conditioned
user-alias filtering (`SubpathValue::add_results`) belong to the turbopack
crates, which are not part of this repository's sources; those are modelled
from the spec (sections 3, 4.1 and 6).  The turbo-tasks `Vc` laziness is out of
scope (the spec treats the task engine as an external collaborator), so
fallible calls such as `get_next_package` are embedded eagerly in the `Except`
monad.
-/

namespace NextImportMap

/-- Build mode (`NextMode` in `mode.rs`, used as `NextMode::Development` /
`NextMode::Build` by `next_import_map.rs`). -/
inductive NextMode where
  | development
  | build
deriving DecidableEq, Repr

/-- Runtime target (`NextRuntime` in `util.rs`): Node.js or Edge. -/
inductive NextRuntime where
  | nodeJs
  | edge
deriving DecidableEq, Repr

/-- File system paths are modelled as plain strings; the construction never
inspects them, it only stores them in mappings. -/
abbrev Path := String

/-- Modelled from the spec: an `ImportMapping` value (spec section 3).
`PrimaryAlternative` is a direct request relative to an optional base context,
`External` leaves the request unresolved (optionally renamed), `Alternatives`
is an ordered fallback chain, `Dynamic` defers to a registered replacer
(identified here by its name plus the project path it was constructed with),
and `Singleton` pins a package to one install location
(`insert_singleton_alias`). -/
inductive ImportMapping where
  | PrimaryAlternative : String → Option Path → ImportMapping
  | External : Option String → ImportMapping
  | Alternatives : List ImportMapping → ImportMapping
  | Dynamic : String → Path → ImportMapping
  | Singleton : Path → ImportMapping
deriving Repr

/-- Alias pattern kind: exact key or wildcard prefix (spec section 3,
`AliasPattern`). -/
inductive AliasKind where
  | exact
  | wildcard
deriving DecidableEq, Repr

/-- One inserted alias rule. -/
structure AliasEntry where
  kind : AliasKind
  key : String
  mapping : ImportMapping
deriving Repr

/-- Modelled from the spec: the alias table.  The source mutates an `ImportMap`
in place; here the table is the list of insertions in call order, and lookup
gives the overwrite (last-write-wins) and precedence semantics of spec
section 4.1. -/
abbrev ImportMap := List AliasEntry

/-- Character-list prefix test. -/
def charsPfx : List Char → List Char → Bool
  | [], _ => true
  | _ :: _, [] => false
  | c :: cs, d :: ds => c == d && charsPfx cs ds

/-- `p` is a literal prefix of `s`. -/
def strStarts (p s : String) : Bool :=
  charsPfx p.data s.data

/-- The suffix of `s` after removing the prefix `k`. -/
def dropAfter (k s : String) : String :=
  String.mk (s.data.drop k.data.length)

/-- One step of exact lookup: a later exact insertion of the key overwrites an
earlier one (last write wins). -/
def exactStep (s : String) (acc : Option ImportMapping) (e : AliasEntry) :
    Option ImportMapping :=
  if e.kind == AliasKind.exact && e.key == s then some e.mapping else acc

/-- Modelled from the spec: exact-registry lookup (spec section 4.1 step 1). -/
def exactLookup (m : ImportMap) (s : String) : Option ImportMapping :=
  m.foldl (exactStep s) none

/-- One step of wildcard lookup: keep the matching entry with the longest
prefix, a most recent entry winning ties (spec section 4.1 step 2). -/
def wildStep (s : String) (acc : Option (String × ImportMapping))
    (e : AliasEntry) : Option (String × ImportMapping) :=
  if e.kind == AliasKind.wildcard && strStarts e.key s then
    match acc with
    | none => some (e.key, e.mapping)
    | some (k, _) => if k.length ≤ e.key.length then some (e.key, e.mapping) else acc
  else acc

/-- Modelled from the spec: wildcard-registry lookup. -/
def wildcardLookup (m : ImportMap) (s : String) : Option (String × ImportMapping) :=
  m.foldl (wildStep s) none

/-- Substitute `suffix` for the (single) `*` capture placeholder. -/
def replaceStar : List Char → List Char → List Char
  | [], _ => []
  | c :: rest, suffix => if c = '*' then suffix ++ rest else c :: replaceStar rest suffix

/-- Modelled from the spec: substituting the unmatched suffix of the specifier
into the wildcard target's capture placeholder. -/
def substituteSuffix (mp : ImportMapping) (suffix : String) : ImportMapping :=
  match mp with
  | .PrimaryAlternative req ctx =>
      .PrimaryAlternative (String.mk (replaceStar req.data suffix.data)) ctx
  | other => other

/-- Modelled from the spec: full lookup — exact match first, otherwise the best
wildcard match with capture substitution (spec section 4.1). -/
def lookup (m : ImportMap) (s : String) : Option ImportMapping :=
  match exactLookup m s with
  | some v => some v
  | none =>
      match wildcardLookup m s with
      | some (k, v) => some (substituteSuffix v (dropAfter k s))
      | none => none

/-! ## Contexts, configuration and the resolution oracle -/

/-- Client context (`ClientContextType` in `next_client/context.rs`, variants
as used by `next_import_map.rs`). -/
inductive ClientContextType where
  | pages (pages_dir : Path)
  | app (app_dir : Path)
  | fallback
  | other
deriving DecidableEq, Repr

/-- Server context (`ServerContextType` in `next_server/context.rs`, variants
as used by `next_import_map.rs`). -/
inductive ServerContextType where
  | pages (pages_dir : Path)
  | pagesData (pages_dir : Path)
  | appSSR (app_dir : Path)
  | appRSC (app_dir : Path)
  | appRoute (app_dir : Path)
  | middleware
deriving DecidableEq, Repr

/-- One user alias entry from project configuration: a pattern plus its ordered
conditioned targets.  A target is `(condition?, request)`; an unconditioned
target always survives filtering, a conditioned one survives when its condition
is in the active condition set (spec section 6, modelling the
`ResolveAliasMap` / `SubpathValue` data of the turbopack crates). -/
structure UserAlias where
  kind : AliasKind
  key : String
  targets : List (Option String × String)
deriving Repr

/-- The slice of `NextConfig` read by `next_import_map.rs`:
`enable_server_actions`, `mdx_rs`, and `resolve_alias_options`. -/
structure NextConfig where
  serverActions : Bool
  mdxRs : Bool
  aliasOptions : List UserAlias
deriving Repr

/-- The resolution oracle (spec sections 2 and 6): where is the `next` package
installed relative to a base directory (`resolve` of `next/package.json` in
`get_next_package`).  `none` means the package was not found. -/
abbrev Oracle := Path → Option Path

/-- Root of the embedded next.js file system (`next_js_fs().root()` from
`embed_js.rs`, which is not under `src/`). -/
def nextJsRoot : Path := "[embedded:next-js-fs]"

/-- Root of the embedded turbopack ecmascript runtime file system
(`turbopack::ecmascript_runtime::embed_fs().root()`). -/
def ecmascriptRuntimeRoot : Path := "[embedded:turbopack-ecmascript-runtime-fs]"

/-- Root of the embedded turbopack node file system
(`turbopack::node::embed_js::embed_fs().root()`). -/
def turbopackNodeRoot : Path := "[embedded:turbopack-node-fs]"

/-- Modelled from the spec: the internal virtual-package-namespace name
(`VIRTUAL_PACKAGE_NAME` from `embed_js.rs`, which is not under `src/`). -/
def VIRTUAL_PACKAGE_NAME : String := "@vercel/turbopack-next"

/-- `request_to_import_mapping`: a direct mapping resolving `request` relative
to `context_path`. -/
def requestToImportMapping (context_path : Path) (request : String) : ImportMapping :=
  .PrimaryAlternative request (some context_path)

/-- `external_request_to_import_mapping`: an external mapping. -/
def externalRequestToImportMapping (request : String) : ImportMapping :=
  .External (some request)

/-- `insert_package_alias`: a wildcard alias from `pfx` to `./*` in
`package_root`. -/
def packageAliasEntry (pfx : String) (package_root : Path) : AliasEntry :=
  ⟨.wildcard, pfx, .PrimaryAlternative "./*" (some package_root)⟩

/-- `insert_turbopack_dev_alias`: the alias for the embedded bundler-runtime
helpers `@vercel/turbopack-ecmascript-runtime/`. -/
def turbopackDevEntry : AliasEntry :=
  packageAliasEntry "@vercel/turbopack-ecmascript-runtime/" ecmascriptRuntimeRoot

/-- `mdx_import_source_file`. -/
def mdxImportSourceFile : String := VIRTUAL_PACKAGE_NAME ++ "/mdx-import-source"

/-- `insert_exact_alias_map`: each pair becomes an exact alias resolved
relative to `project_path`, in declared (IndexMap) order. -/
def exactAliasMapEntries (project_path : Path) (map : List (String × String)) :
    List AliasEntry :=
  map.map fun p => ⟨.exact, p.1, requestToImportMapping project_path p.2⟩

/-- `insert_wildcard_alias_map`: each pair becomes a wildcard alias resolved
relative to `project_path`, in declared (IndexMap) order. -/
def wildcardAliasMapEntries (project_path : Path) (map : List (String × String)) :
    List AliasEntry :=
  map.map fun p => ⟨.wildcard, p.1, requestToImportMapping project_path p.2⟩

/-- `insert_alias_to_alternatives`: an exact alias to an ordered alternatives
chain. -/
def aliasToAlternativesEntry (aliasKey : String) (alternatives : List ImportMapping) :
    AliasEntry :=
  ⟨.exact, aliasKey, .Alternatives alternatives⟩

/-- `NEXT_ALIASES`: the Node.js polyfill substitutions. -/
def NEXT_ALIASES : List (String × String) :=
  [("assert", "next/dist/compiled/assert"),
   ("buffer", "next/dist/compiled/buffer"),
   ("constants", "next/dist/compiled/constants-browserify"),
   ("crypto", "next/dist/compiled/crypto-browserify"),
   ("domain", "next/dist/compiled/domain-browser"),
   ("http", "next/dist/compiled/stream-http"),
   ("https", "next/dist/compiled/https-browserify"),
   ("os", "next/dist/compiled/os-browserify"),
   ("path", "next/dist/compiled/path-browserify"),
   ("punycode", "next/dist/compiled/punycode"),
   ("process", "next/dist/build/polyfills/process"),
   ("querystring", "next/dist/compiled/querystring-es3"),
   ("stream", "next/dist/compiled/stream-browserify"),
   ("string_decoder", "next/dist/compiled/string_decoder"),
   ("sys", "next/dist/compiled/util"),
   ("timers", "next/dist/compiled/timers-browserify"),
   ("tty", "next/dist/compiled/tty-browserify"),
   ("url", "next/dist/compiled/native-url"),
   ("util", "next/dist/compiled/util"),
   ("vm", "next/dist/compiled/vm-browserify"),
   ("zlib", "next/dist/compiled/browserify-zlib"),
   ("events", "next/dist/compiled/events"),
   ("setImmediate", "next/dist/compiled/setimmediate")]

/-- `get_next_package`: resolve `next/package.json` from `context_directory`
via the oracle; failing to find it is the construction-time error
"Next.js package not found". -/
def getNextPackage (o : Oracle) (context_directory : Path) : Except String Path :=
  match o context_directory with
  | some p => .ok p
  | none => .error "Next.js package not found"

/-! ## User-supplied aliases (`insert_alias_option`) -/

/-- Modelled from the spec: whether one conditioned target survives filtering
against the active condition set (the behaviour `SubpathValue::add_results`
gives to the flat conditioned-target lists of spec section 6; the turbopack
implementation is not under `src/`). -/
def condTargetActive (conditions : List String) (ct : Option String × String) : Bool :=
  match ct.1 with
  | none => true
  | some c => conditions.contains c

/-- The ordered list of target requests surviving condition filtering. -/
def activeTargets (conditions : List String)
    (value : List (Option String × String)) : List String :=
  (value.filter (condTargetActive conditions)).map Prod.snd

/-- `export_value_to_import_mapping`: no surviving target means no mapping, a
single survivor becomes a direct mapping relative to `project_path`, several
survivors become an alternatives chain in declared order. -/
def exportValueToImportMapping (value : List (Option String × String))
    (conditions : List String) (project_path : Path) : Option ImportMapping :=
  let result := activeTargets conditions value
  if result.isEmpty then none
  else if result.length == 1 then
    some (.PrimaryAlternative (result.headD "") (some project_path))
  else
    some (.Alternatives (result.map fun m => .PrimaryAlternative m (some project_path)))

/-- `insert_alias_option`: iterate the user alias entries in declared order;
entries whose conditioned targets all filter away are skipped, the others are
inserted with their pattern. -/
def insertAliasOption (project_path : Path) (conditions : List String) :
    List UserAlias → List AliasEntry
  | [] => []
  | e :: rest =>
      (match exportValueToImportMapping e.targets conditions project_path with
       | none => []
       | some mapping => [⟨e.kind, e.key, mapping⟩])
      ++ insertAliasOption project_path conditions rest

/-! ## Shared and optimized-module passes -/

/-- `insert_optimized_module_aliases`: stubs of fetch, object-assign and url. -/
def insertOptimizedModuleAliases (project_path : Path) : List AliasEntry :=
  exactAliasMapEntries project_path
    [("unfetch", "next/dist/build/polyfills/fetch/index.js"),
     ("isomorphic-unfetch", "next/dist/build/polyfills/fetch/index.js"),
     ("whatwg-fetch", "next/dist/build/polyfills/fetch/whatwg-fetch.js"),
     ("object-assign", "next/dist/build/polyfills/object-assign.js"),
     ("object.assign/auto", "next/dist/build/polyfills/object.assign/auto.js"),
     ("object.assign/implementation", "next/dist/build/polyfills/object.assign/implementation.js"),
     ("object.assign/polyfill", "next/dist/build/polyfills/object.assign/polyfill.js"),
     ("object.assign/shim", "next/dist/build/polyfills/object.assign/shim.js"),
     ("url", "next/dist/compiled/native-url")]

/-- The entries inserted by `insert_next_shared_aliases`, in source call
order: the optional mdx import-source alternatives, the dev-overlay
replacement outside development mode, the virtual package namespace, the font
dynamic replacers, the singleton pins, the setimmediate alias, the turbopack
dev alias and the turbopack node package alias.  `next_package` is the result
of `get_next_package(project_path)`. -/
def sharedAliasEntries (next_package : Path) (project_path : Path)
    (next_config : NextConfig) (mode : NextMode) : List AliasEntry :=
  let package_root := nextJsRoot
  (if next_config.mdxRs then
      [aliasToAlternativesEntry mdxImportSourceFile
        [requestToImportMapping project_path "./mdx-components",
         requestToImportMapping project_path "./src/mdx-components",
         requestToImportMapping project_path "@mdx-js/react"]]
     else [])
    ++ (if mode ≠ NextMode.development then
      [⟨.exact, "next/dist/compiled/@next/react-dev-overlay/dist/client",
        requestToImportMapping package_root "./overlay/client.ts"⟩]
     else [])
    ++ [packageAliasEntry (VIRTUAL_PACKAGE_NAME ++ "/") package_root]
    ++ [⟨.exact, "next/font/google/target.css", .Dynamic "NextFontGoogleReplacer" project_path⟩,
        ⟨.exact, "@next/font/google/target.css", .Dynamic "NextFontGoogleReplacer" project_path⟩,
        ⟨.exact, "@vercel/turbopack-next/internal/font/google/cssmodule.module.css",
          .Dynamic "NextFontGoogleCssModuleReplacer" project_path⟩,
        ⟨.exact, "next/font/local/target.css", .Dynamic "NextFontLocalReplacer" project_path⟩,
        ⟨.exact, "@next/font/local/target.css", .Dynamic "NextFontLocalReplacer" project_path⟩,
        ⟨.exact, "@vercel/turbopack-next/internal/font/local/cssmodule.module.css",
          .Dynamic "NextFontLocalCssModuleReplacer" project_path⟩]
    ++ [⟨.exact, "@swc/helpers", .Singleton next_package⟩,
        ⟨.exact, "styled-jsx", .Singleton next_package⟩,
        ⟨.exact, "next", .Singleton project_path⟩,
        ⟨.exact, "react", .Singleton project_path⟩,
        ⟨.exact, "react-dom", .Singleton project_path⟩]
    ++ [⟨.exact, "setimmediate",
        requestToImportMapping project_path "next/dist/compiled/setimmediate"⟩]
    ++ [turbopackDevEntry]
    ++ [packageAliasEntry "@vercel/turbopack-node/" turbopackNodeRoot]

/-- `insert_next_shared_aliases`: its only fallible step is
`get_next_package` on `project_path` (for the `@swc/helpers` and `styled-jsx`
singletons). -/
def insertNextSharedAliases (o : Oracle) (project_path : Path)
    (next_config : NextConfig) (mode : NextMode) :
    Except String (List AliasEntry) := do
  let next_package ← getNextPackage o project_path
  pure (sharedAliasEntries next_package project_path next_config mode)

/-! ## Context-specific passes of the client, server and edge maps -/

/-- The `match ty` block of `get_next_client_import_map` (page-level special
file alternatives for Pages, the react/streaming aliases for App). -/
def clientContextEntries (project_path : Path) (ty : ClientContextType)
    (serverActions : Bool) : List AliasEntry :=
  match ty with
  | .pages pages_dir =>
      [aliasToAlternativesEntry (VIRTUAL_PACKAGE_NAME ++ "/pages/_app")
        [requestToImportMapping pages_dir "./_app",
         requestToImportMapping pages_dir "next/app"],
       aliasToAlternativesEntry (VIRTUAL_PACKAGE_NAME ++ "/pages/_document")
        [requestToImportMapping pages_dir "./_document",
         requestToImportMapping pages_dir "next/document"],
       aliasToAlternativesEntry (VIRTUAL_PACKAGE_NAME ++ "/pages/_error")
        [requestToImportMapping pages_dir "./_error",
         requestToImportMapping pages_dir "next/error"]]
  | .app app_dir =>
      let react_flavor := if serverActions then "-experimental" else ""
      [⟨.exact, "react",
        requestToImportMapping app_dir ("next/dist/compiled/react" ++ react_flavor)⟩,
       ⟨.wildcard, "react/",
        requestToImportMapping app_dir ("next/dist/compiled/react" ++ react_flavor ++ "/*")⟩,
       ⟨.exact, "react-dom",
        requestToImportMapping app_dir ("next/dist/compiled/react-dom" ++ react_flavor)⟩,
       ⟨.wildcard, "react-dom/",
        requestToImportMapping app_dir ("next/dist/compiled/react-dom" ++ react_flavor ++ "/*")⟩,
       ⟨.wildcard, "react-server-dom-webpack/",
        requestToImportMapping app_dir "react-server-dom-turbopack/*"⟩,
       ⟨.wildcard, "react-server-dom-turbopack/",
        requestToImportMapping app_dir
          ("next/dist/compiled/react-server-dom-turbopack" ++ react_flavor ++ "/*")⟩,
       ⟨.exact, "next/head",
        requestToImportMapping project_path "next/dist/client/components/noop-head"⟩,
       ⟨.exact, "next/dynamic",
        requestToImportMapping project_path "next/dist/shared/lib/app-dynamic"⟩]
  | .fallback => []
  | .other => []

/-- The `server-only` / `client-only` block shared by the client map
(index variants regardless of context). -/
def clientServerOnlyEntries (project_path : Path) : List AliasEntry :=
  exactAliasMapEntries project_path
    [("server-only", "next/dist/compiled/server-only/index"),
     ("client-only", "next/dist/compiled/client-only/index"),
     ("next/dist/compiled/server-only", "next/dist/compiled/server-only/index"),
     ("next/dist/compiled/client-only", "next/dist/compiled/client-only/index")]

/-- The second `match ty` block of `get_next_client_import_map`: the `node:`
prefixed polyfill aliases for Pages, App and Fallback contexts. -/
def clientNodePolyfillEntries (project_path : Path) (ty : ClientContextType) :
    List AliasEntry :=
  match ty with
  | .pages _ | .app _ | .fallback =>
      NEXT_ALIASES.map fun p =>
        ⟨.exact, "node:" ++ p.1, requestToImportMapping project_path p.2⟩
  | .other => []

/-- The `match ty` block of `get_next_server_import_map` (externals for Pages
contexts; action loaders, noop-head/app-dynamic and streaming-runtime aliases
for App contexts). -/
def serverContextEntries (project_path : Path) (ty : ServerContextType)
    (serverActions : Bool) : List AliasEntry :=
  match ty with
  | .pages _ | .pagesData _ =>
      [⟨.exact, "react", .External none⟩,
       ⟨.wildcard, "react/", .External none⟩,
       ⟨.exact, "react-dom", .External none⟩,
       ⟨.wildcard, "react-dom/", .External none⟩,
       ⟨.exact, "styled-jsx", .External none⟩,
       ⟨.wildcard, "styled-jsx/", .External none⟩,
       ⟨.wildcard, "next/dist/build/utils", .External none⟩]
  | .appSSR _ | .appRSC _ | .appRoute _ =>
      let react_flavor := if serverActions then "-experimental" else ""
      [⟨.exact, "private-next-rsc-action-proxy",
        requestToImportMapping project_path
          "next/dist/build/webpack/loaders/next-flight-loader/action-proxy"⟩,
       ⟨.exact, "private-next-rsc-action-client-wrapper",
        requestToImportMapping project_path
          "next/dist/build/webpack/loaders/next-flight-loader/action-client-wrapper"⟩,
       ⟨.exact, "private-next-rsc-action-validate",
        requestToImportMapping project_path
          "next/dist/build/webpack/loaders/next-flight-loader/action-validate"⟩,
       ⟨.exact, "next/head",
        requestToImportMapping project_path "next/dist/client/components/noop-head"⟩,
       ⟨.exact, "next/dynamic",
        requestToImportMapping project_path "next/dist/shared/lib/app-dynamic"⟩,
       ⟨.exact, "react-server-dom-webpack/client",
        requestToImportMapping project_path
          ("next/dist/compiled/react-server-dom-turbopack" ++ react_flavor ++ "/client")⟩,
       ⟨.exact, "react-server-dom-turbopack/client",
        requestToImportMapping project_path
          ("next/dist/compiled/react-server-dom-turbopack" ++ react_flavor ++ "/client")⟩,
       ⟨.exact, "react-server-dom-webpack/client.edge",
        requestToImportMapping project_path
          ("next/dist/compiled/react-server-dom-turbopack" ++ react_flavor ++ "/client.edge")⟩,
       ⟨.exact, "react-server-dom-turbopack/client.edge",
        requestToImportMapping project_path
          ("next/dist/compiled/react-server-dom-turbopack" ++ react_flavor ++ "/client.edge")⟩,
       ⟨.exact, "react-server-dom-webpack/server.edge",
        requestToImportMapping project_path
          ("next/dist/compiled/react-server-dom-turbopack" ++ react_flavor ++ "/server.edge")⟩,
       ⟨.exact, "react-server-dom-turbopack/server.edge",
        requestToImportMapping project_path
          ("next/dist/compiled/react-server-dom-turbopack" ++ react_flavor ++ "/server.edge")⟩,
       ⟨.exact, "react-server-dom-webpack/server.node",
        requestToImportMapping project_path
          ("next/dist/compiled/react-server-dom-turbopack" ++ react_flavor ++ "/server.node")⟩,
       ⟨.exact, "react-server-dom-turbopack/server.node",
        requestToImportMapping project_path
          ("next/dist/compiled/react-server-dom-turbopack" ++ react_flavor ++ "/server.node")⟩]
  | .middleware => []

/-- The `match ty` block of `get_next_edge_import_map` (noop-head, app-dynamic
and streaming-runtime aliases for App contexts). -/
def edgeContextEntries (project_path : Path) (ty : ServerContextType)
    (serverActions : Bool) : List AliasEntry :=
  match ty with
  | .pages _ | .pagesData _ => []
  | .appSSR _ | .appRSC _ | .appRoute _ =>
      let react_flavor := if serverActions then "-experimental" else ""
      [⟨.exact, "next/head",
        requestToImportMapping project_path "next/dist/client/components/noop-head"⟩,
       ⟨.exact, "next/dynamic",
        requestToImportMapping project_path "next/dist/shared/lib/app-dynamic"⟩,
       ⟨.exact, "react-server-dom-webpack/client",
        requestToImportMapping project_path
          ("next/dist/compiled/react-server-dom-turbopack" ++ react_flavor ++ "/client")⟩,
       ⟨.exact, "react-server-dom-turbopack/client",
        requestToImportMapping project_path
          ("next/dist/compiled/react-server-dom-turbopack" ++ react_flavor ++ "/client")⟩,
       ⟨.exact, "react-server-dom-webpack/client.edge",
        requestToImportMapping project_path
          ("next/dist/compiled/react-server-dom-turbopack" ++ react_flavor ++ "/client.edge")⟩,
       ⟨.exact, "react-server-dom-turbopack/client.edge",
        requestToImportMapping project_path
          ("next/dist/compiled/react-server-dom-turbopack" ++ react_flavor ++ "/client.edge")⟩,
       ⟨.exact, "react-server-dom-webpack/server.edge",
        requestToImportMapping project_path
          ("next/dist/compiled/react-server-dom-turbopack" ++ react_flavor ++ "/server.edge")⟩,
       ⟨.exact, "react-server-dom-turbopack/server.edge",
        requestToImportMapping project_path
          ("next/dist/compiled/react-server-dom-turbopack" ++ react_flavor ++ "/server.edge")⟩,
       ⟨.exact, "react-server-dom-webpack/server.node",
        requestToImportMapping project_path
          ("next/dist/compiled/react-server-dom-turbopack" ++ react_flavor ++ "/server.node")⟩,
       ⟨.exact, "react-server-dom-turbopack/server.node",
        requestToImportMapping project_path
          ("next/dist/compiled/react-server-dom-turbopack" ++ react_flavor ++ "/server.node")⟩]
  | .middleware => []

/-! ## `insert_next_server_special_aliases` -/

/-- The `external_if_node` closure: on Edge a direct request in `context_dir`,
on Node.js an external request. -/
def externalIfNode (runtime : NextRuntime) (context_dir : Path) (request : String) :
    ImportMapping :=
  match runtime with
  | .edge => requestToImportMapping context_dir request
  | .nodeJs => externalRequestToImportMapping request

/-- The first `match (mode, ty)` block of `insert_next_server_special_aliases`.
In the source the App arms are guarded by `NextMode::Build |
NextMode::Development`, which covers every mode, so the match does not actually
depend on `mode`.  The App arms read `get_next_package(app_dir)` for the
styled-jsx aliases; `next_package` is that result (ignored by the non-App
arms, which never consult the oracle). -/
def serverSpecialContextEntriesCore (next_package : Path) (ty : ServerContextType)
    (runtime : NextRuntime) (serverActions : Bool) : List AliasEntry :=
  match ty with
  | .pages pages_dir =>
        [⟨.exact, "@opentelemetry/api",
          externalIfNode runtime pages_dir "next/dist/compiled/@opentelemetry/api"⟩,
         aliasToAlternativesEntry (VIRTUAL_PACKAGE_NAME ++ "/pages/_app")
          [requestToImportMapping pages_dir "./_app",
           externalIfNode runtime pages_dir "next/app"],
         aliasToAlternativesEntry (VIRTUAL_PACKAGE_NAME ++ "/pages/_document")
          [requestToImportMapping pages_dir "./_document",
           externalIfNode runtime pages_dir "next/document"],
         aliasToAlternativesEntry (VIRTUAL_PACKAGE_NAME ++ "/pages/_error")
          [requestToImportMapping pages_dir "./_error",
           externalIfNode runtime pages_dir "next/error"]]
  | .pagesData _ => []
  | .appSSR app_dir =>
        [⟨.exact, "@opentelemetry/api",
          requestToImportMapping app_dir "next/dist/compiled/@opentelemetry/api"⟩,
         ⟨.exact, "styled-jsx", requestToImportMapping next_package "styled-jsx"⟩,
         ⟨.wildcard, "styled-jsx/", requestToImportMapping next_package "styled-jsx/*"⟩,
         ⟨.exact, "react/jsx-runtime",
          requestToImportMapping app_dir
            (match runtime, serverActions with
             | .edge, true => "next/dist/compiled/react-experimental/jsx-runtime"
             | .edge, false => "next/dist/compiled/react/jsx-runtime"
             | .nodeJs, _ =>
                "next/dist/server/future/route-modules/app-page/vendored/ssr/react-jsx-runtime")⟩,
         ⟨.exact, "react/jsx-dev-runtime",
          requestToImportMapping app_dir
            (match runtime, serverActions with
             | .edge, true => "next/dist/compiled/react-experimental/jsx-dev-runtime"
             | .edge, false => "next/dist/compiled/react/jsx-dev-runtime"
             | .nodeJs, _ =>
                "next/dist/server/future/route-modules/app-page/vendored/ssr/react-jsx-dev-runtime")⟩,
         ⟨.exact, "react",
          requestToImportMapping app_dir
            (match runtime, serverActions with
             | .edge, true => "next/dist/compiled/react-experimental"
             | .edge, false => "next/dist/compiled/react"
             | .nodeJs, _ =>
                "next/dist/server/future/route-modules/app-page/vendored/ssr/react")⟩,
         ⟨.exact, "react-dom",
          requestToImportMapping app_dir
            (match runtime, serverActions with
             | .edge, true => "next/dist/compiled/react-dom-experimental"
             | .edge, false => "next/dist/compiled/react-dom"
             | .nodeJs, _ =>
                "next/dist/server/future/route-modules/app-page/vendored/ssr/react-dom")⟩,
         ⟨.exact, "react-server-dom-webpack/client.edge",
          requestToImportMapping app_dir
            (match runtime, serverActions with
             | .edge, true =>
                "next/dist/compiled/react-server-dom-turbopack-experimental/client.edge"
             | .edge, false => "next/dist/compiled/react-server-dom-turbopack/client.edge"
             | .nodeJs, _ =>
                "next/dist/server/future/route-modules/app-page/vendored/ssr/react-server-dom-turbopack-client-edge")⟩,
         ⟨.exact, "react-server-dom-turbopack/client.edge",
          requestToImportMapping app_dir
            (match runtime, serverActions with
             | .edge, true =>
                "next/dist/compiled/react-server-dom-turbopack-experimental/client.edge"
             | .edge, false => "next/dist/compiled/react-server-dom-turbopack/client.edge"
             | .nodeJs, _ =>
                "next/dist/server/future/route-modules/app-page/vendored/ssr/react-server-dom-turbopack-client-edge")⟩,
         ⟨.exact, "react-dom/server",
          requestToImportMapping app_dir
            (match runtime, serverActions with
             | .edge, true => "next/dist/compiled/react-dom-experimental/server.edge"
             | .edge, false => "next/dist/compiled/react-dom/server.edge"
             | .nodeJs, _ =>
                "next/dist/server/future/route-modules/app-page/vendored/ssr/react-dom-server-edge")⟩,
         ⟨.exact, "react-dom/server.edge",
          requestToImportMapping app_dir
            (match runtime, serverActions with
             | .edge, true => "next/dist/compiled/react-dom-experimental/server.edge"
             | .edge, false => "next/dist/compiled/react-dom/server.edge"
             | .nodeJs, _ =>
                "next/dist/server/future/route-modules/app-page/vendored/ssr/react-dom-server-edge")⟩]
  | .appRSC app_dir | .appRoute app_dir =>
        [⟨.exact, "@opentelemetry/api",
          requestToImportMapping app_dir "next/dist/compiled/@opentelemetry/api"⟩,
         ⟨.exact, "styled-jsx", requestToImportMapping next_package "styled-jsx"⟩,
         ⟨.wildcard, "styled-jsx/", requestToImportMapping next_package "styled-jsx/*"⟩,
         ⟨.exact, "react/jsx-runtime",
          requestToImportMapping app_dir
            (match runtime, serverActions with
             | .edge, true => "next/dist/compiled/react-experimental/jsx-runtime"
             | .edge, false => "next/dist/compiled/react/jsx-runtime"
             | .nodeJs, _ =>
                "next/dist/server/future/route-modules/app-page/vendored/rsc/react-jsx-runtime")⟩,
         ⟨.exact, "react/jsx-dev-runtime",
          requestToImportMapping app_dir
            (match runtime, serverActions with
             | .edge, true => "next/dist/compiled/react-experimental/jsx-dev-runtime"
             | .edge, false => "next/dist/compiled/react/jsx-dev-runtime"
             | .nodeJs, _ =>
                "next/dist/server/future/route-modules/app-page/vendored/rsc/react-jsx-dev-runtime")⟩,
         ⟨.exact, "react",
          requestToImportMapping app_dir
            (match runtime, serverActions with
             | .edge, true => "next/dist/compiled/react-experimental"
             | .edge, false => "next/dist/compiled/react"
             | .nodeJs, _ =>
                "next/dist/server/future/route-modules/app-page/vendored/rsc/react")⟩,
         ⟨.exact, "react-dom",
          requestToImportMapping app_dir
            (match runtime, serverActions with
             | .edge, true => "next/dist/compiled/react-dom-experimental"
             | .edge, false => "next/dist/compiled/react-dom"
             | .nodeJs, _ =>
                "next/dist/server/future/route-modules/app-page/vendored/rsc/react-dom")⟩,
         ⟨.exact, "react-server-dom-webpack/server.edge",
          requestToImportMapping app_dir
            (match runtime, serverActions with
             | .edge, true =>
                "next/dist/compiled/react-server-dom-turbopack-experimental/server.edge"
             | .edge, false => "next/dist/compiled/react-server-dom-turbopack/server.edge"
             | .nodeJs, _ =>
                "next/dist/server/future/route-modules/app-page/vendored/rsc/react-server-dom-turbopack-server-edge")⟩,
         ⟨.exact, "react-server-dom-turbopack/server.edge",
          requestToImportMapping app_dir
            (match runtime, serverActions with
             | .edge, true =>
                "next/dist/compiled/react-server-dom-turbopack-experimental/server.edge"
             | .edge, false => "next/dist/compiled/react-server-dom-turbopack/server.edge"
             | .nodeJs, _ =>
                "next/dist/server/future/route-modules/app-page/vendored/rsc/react-server-dom-turbopack-server-edge")⟩,
         ⟨.exact, "react-server-dom-webpack/server.node",
          requestToImportMapping app_dir
            (match runtime, serverActions with
             | .edge, true =>
                "next/dist/compiled/react-server-dom-turbopack-experimental/server.node"
             | .edge, false => "next/dist/compiled/react-server-dom-turbopack/server.node"
             | .nodeJs, _ =>
                "next/dist/server/future/route-modules/app-page/vendored/rsc/react-server-dom-turbopack-server-node")⟩,
         ⟨.exact, "react-server-dom-turbopack/server.node",
          requestToImportMapping app_dir
            (match runtime, serverActions with
             | .edge, true =>
                "next/dist/compiled/react-server-dom-turbopack-experimental/server.node"
             | .edge, false => "next/dist/compiled/react-server-dom-turbopack/server.node"
             | .nodeJs, _ =>
                "next/dist/server/future/route-modules/app-page/vendored/rsc/react-server-dom-turbopack-server-node")⟩,
         ⟨.exact, "react-dom/server.edge",
          requestToImportMapping app_dir
            (match runtime, serverActions with
             | .edge, true => "next/dist/compiled/react-dom-experimental/server.edge"
             | .edge, false => "next/dist/compiled/react-dom/server.edge"
             | .nodeJs, _ =>
                "next/dist/server/future/route-modules/app-page/vendored/ssr/react-dom-server-edge")⟩]
  | .middleware => []

/-- The second `match ty` block of `insert_next_server_special_aliases`:
`server-only` / `client-only` variants per context group. -/
def serverOnlyGroupEntries (project_path : Path) (ty : ServerContextType) :
    List AliasEntry :=
  match ty with
  | .pages _ | .pagesData _ | .appSSR _ =>
      exactAliasMapEntries project_path
        [("server-only", "next/dist/compiled/server-only/index"),
         ("client-only", "next/dist/compiled/client-only/index"),
         ("next/dist/compiled/server-only", "next/dist/compiled/server-only/index"),
         ("next/dist/compiled/client-only", "next/dist/compiled/client-only/index")]
  | .appRSC _ | .appRoute _ | .middleware =>
      exactAliasMapEntries project_path
        [("server-only", "next/dist/compiled/server-only/empty"),
         ("client-only", "next/dist/compiled/client-only/error"),
         ("next/dist/compiled/server-only", "next/dist/compiled/server-only/empty"),
         ("next/dist/compiled/client-only", "next/dist/compiled/client-only/error")]

/-- The middleware-only `client-only` relaxation block. -/
def middlewareClientOnlyEntries (project_path : Path) (ty : ServerContextType) :
    List AliasEntry :=
  if ty = ServerContextType.middleware then
    exactAliasMapEntries project_path
      [("client-only", "next/dist/compiled/client-only/index"),
       ("next/dist/compiled/client-only", "next/dist/compiled/client-only/index"),
       ("next/dist/compiled/client-only/error", "next/dist/compiled/client-only/index")]
  else []

/-- The entries of `insert_next_server_special_aliases`, in source order: the
context match, the `server-only`/`client-only` groups, the middleware
relaxation, and the `@vercel/og` alias. -/
def serverSpecialAliasEntries (next_package : Path) (project_path : Path)
    (ty : ServerContextType) (runtime : NextRuntime) (serverActions : Bool) :
    List AliasEntry :=
  serverSpecialContextEntriesCore next_package ty runtime serverActions
    ++ serverOnlyGroupEntries project_path ty
    ++ middlewareClientOnlyEntries project_path ty
    ++ [⟨.exact, "@vercel/og",
        externalIfNode runtime project_path
          "next/dist/server/web/spec-extension/image-response"⟩]

/-- `insert_next_server_special_aliases`.  Only the App arms of the context
match call `get_next_package` (on `app_dir`); the other arms never consult the
oracle, so their `next_package` argument is irrelevant and instantiated with
the project path. -/
def insertNextServerSpecialAliases (o : Oracle) (project_path : Path)
    (ty : ServerContextType) (_mode : NextMode) (runtime : NextRuntime)
    (next_config : NextConfig) : Except String (List AliasEntry) :=
  match ty with
  | .appSSR app_dir | .appRSC app_dir | .appRoute app_dir => do
      let next_package ← getNextPackage o app_dir
      pure (serverSpecialAliasEntries next_package project_path ty runtime
        next_config.serverActions)
  | _ =>
      pure (serverSpecialAliasEntries project_path project_path ty runtime
        next_config.serverActions)

/-! ## The three import-map constructions and the resolved map -/

/-- `get_next_client_import_map`, with the insertion passes in source call
order: shared aliases, optimized-module aliases, the user alias options with
the `browser` condition, the client context block, the
`server-only`/`client-only` block, the `node:` polyfill block and the final
turbopack dev alias. -/
def getNextClientImportMap (o : Oracle) (project_path : Path)
    (ty : ClientContextType) (mode : NextMode) (next_config : NextConfig) :
    Except String ImportMap := do
  let shared ← insertNextSharedAliases o project_path next_config mode
  pure (shared
    ++ insertOptimizedModuleAliases project_path
    ++ insertAliasOption project_path ["browser"] next_config.aliasOptions
    ++ clientContextEntries project_path ty next_config.serverActions
    ++ clientServerOnlyEntries project_path
    ++ clientNodePolyfillEntries project_path ty
    ++ [turbopackDevEntry])

/-- `get_next_server_import_map`, in source call order: shared aliases, the
user alias options with the empty condition set, the `require-hook` external,
the server context block and the special aliases for the Node.js runtime. -/
def getNextServerImportMap (o : Oracle) (project_path : Path)
    (ty : ServerContextType) (mode : NextMode) (next_config : NextConfig) :
    Except String ImportMap := do
  let shared ← insertNextSharedAliases o project_path next_config mode
  let special ← insertNextServerSpecialAliases o project_path ty mode .nodeJs next_config
  pure (shared
    ++ insertAliasOption project_path [] next_config.aliasOptions
    ++ [⟨.exact, "next/dist/server/require-hook", .External none⟩]
    ++ serverContextEntries project_path ty next_config.serverActions
    ++ special)

/-- The `next/dist` to `next/dist/esm` wildcard block of
`get_next_edge_import_map`. -/
def edgeEsmWildcardEntries (project_path : Path) : List AliasEntry :=
  wildcardAliasMapEntries project_path
    [("next/dist/build/", "next/dist/esm/build/*"),
     ("next/dist/client/", "next/dist/esm/client/*"),
     ("next/dist/shared/", "next/dist/esm/shared/*"),
     ("next/dist/pages/", "next/dist/esm/pages/*"),
     ("next/dist/lib/", "next/dist/esm/lib/*"),
     ("next/dist/server/", "next/dist/esm/server/*")]

/-- The public-API exact alias block of `get_next_edge_import_map`. -/
def edgeEsmExactEntries (project_path : Path) : List AliasEntry :=
  exactAliasMapEntries project_path
    [("next/app", "next/dist/esm/pages/_app"),
     ("next/document", "next/dist/esm/pages/_document"),
     ("next/dynamic", "next/dist/esm/shared/lib/dynamic"),
     ("next/head", "next/dist/esm/shared/lib/head"),
     ("next/headers", "next/dist/esm/client/components/headers"),
     ("next/image", "next/dist/esm/shared/lib/image-external"),
     ("next/link", "next/dist/esm/client/link"),
     ("next/navigation", "next/dist/esm/client/components/navigation"),
     ("next/router", "next/dist/esm/client/router"),
     ("next/script", "next/dist/esm/client/script"),
     ("next/server", "next/dist/esm/server/web/exports/index"),
     ("next/dist/client/components/headers", "next/dist/esm/client/components/headers"),
     ("next/dist/client/components/navigation", "next/dist/esm/client/components/navigation"),
     ("next/dist/client/link", "next/dist/esm/client/link"),
     ("next/dist/client/router", "next/dist/esm/client/router"),
     ("next/dist/client/script", "next/dist/esm/client/script"),
     ("next/dist/pages/_app", "next/dist/esm/pages/_app"),
     ("next/dist/pages/_document", "next/dist/esm/pages/_document"),
     ("next/dist/shared/lib/dynamic", "next/dist/esm/shared/lib/dynamic"),
     ("next/dist/shared/lib/head", "next/dist/esm/shared/lib/head"),
     ("next/dist/shared/lib/image-external", "next/dist/esm/shared/lib/image-external")]

/-- `get_next_edge_import_map`, in source call order: the esm wildcard and
exact blocks, shared aliases, optimized-module aliases, the user alias options
with the empty condition set, the edge context block and the special aliases
for the Edge runtime. -/
def getNextEdgeImportMap (o : Oracle) (project_path : Path)
    (ty : ServerContextType) (mode : NextMode) (next_config : NextConfig) :
    Except String ImportMap := do
  let shared ← insertNextSharedAliases o project_path next_config mode
  let special ← insertNextServerSpecialAliases o project_path ty mode .edge next_config
  pure (edgeEsmWildcardEntries project_path
    ++ edgeEsmExactEntries project_path
    ++ shared
    ++ insertOptimizedModuleAliases project_path
    ++ insertAliasOption project_path [] next_config.aliasOptions
    ++ edgeContextEntries project_path ty next_config.serverActions
    ++ special)

/-- One glob entry of the resolved map. -/
structure ResolvedMapEntry where
  base : Path
  glob : String
  mapping : ImportMapping
deriving Repr

/-- `get_next_client_resolved_map`: outside development mode, a single glob
entry replacing the hot-reloader client module. -/
def getNextClientResolvedMap (context : Path) (root : Path) (mode : NextMode) :
    List ResolvedMapEntry :=
  if mode = NextMode.development then []
  else
    [⟨context,
      "**/next/dist/client/components/react-dev-overlay/hot-reloader-client.js",
      .PrimaryAlternative "@vercel/turbopack-next/dev/hot-reloader.tsx" (some root)⟩]

/-! ## The selection matrix (spec section 4.4), stated independently of the
construction -/

/-- Which sub-entry of the react runtime family is selected. -/
inductive ReactEntry where
  | react
  | jsxRuntime
  | jsxDevRuntime
  | streamClientEdge
  | streamServerEdge
  | streamServerNode
deriving DecidableEq, Repr

/-- Which rendering phase the vendored Node.js variant belongs to: `ssr` for
the AppSSR context, `rsc` for AppRSC/AppRoute. -/
inductive ReactPhase where
  | ssr
  | rsc
deriving DecidableEq, Repr

/-- The selection matrix as the claim states it: a pure function of the
runtime target and the server-actions flag (plus the rendering phase for the
vendored Node.js variants).  Edge with server actions picks the
`-experimental` compiled variant, Edge without picks the standard compiled
variant, Node.js picks the vendored route-modules variant. -/
def selectReactVariant (entry : ReactEntry) (phase : ReactPhase)
    (runtime : NextRuntime) (serverActions : Bool) : String :=
  let vendored := fun (tail : String) =>
    "next/dist/server/future/route-modules/app-page/vendored/"
      ++ (match phase with | .ssr => "ssr" | .rsc => "rsc") ++ "/" ++ tail
  match entry with
  | .react =>
      match runtime, serverActions with
      | .edge, true => "next/dist/compiled/react-experimental"
      | .edge, false => "next/dist/compiled/react"
      | .nodeJs, _ => vendored "react"
  | .jsxRuntime =>
      match runtime, serverActions with
      | .edge, true => "next/dist/compiled/react-experimental/jsx-runtime"
      | .edge, false => "next/dist/compiled/react/jsx-runtime"
      | .nodeJs, _ => vendored "react-jsx-runtime"
  | .jsxDevRuntime =>
      match runtime, serverActions with
      | .edge, true => "next/dist/compiled/react-experimental/jsx-dev-runtime"
      | .edge, false => "next/dist/compiled/react/jsx-dev-runtime"
      | .nodeJs, _ => vendored "react-jsx-dev-runtime"
  | .streamClientEdge =>
      match runtime, serverActions with
      | .edge, true => "next/dist/compiled/react-server-dom-turbopack-experimental/client.edge"
      | .edge, false => "next/dist/compiled/react-server-dom-turbopack/client.edge"
      | .nodeJs, _ => vendored "react-server-dom-turbopack-client-edge"
  | .streamServerEdge =>
      match runtime, serverActions with
      | .edge, true => "next/dist/compiled/react-server-dom-turbopack-experimental/server.edge"
      | .edge, false => "next/dist/compiled/react-server-dom-turbopack/server.edge"
      | .nodeJs, _ => vendored "react-server-dom-turbopack-server-edge"
  | .streamServerNode =>
      match runtime, serverActions with
      | .edge, true => "next/dist/compiled/react-server-dom-turbopack-experimental/server.node"
      | .edge, false => "next/dist/compiled/react-server-dom-turbopack/server.node"
      | .nodeJs, _ => vendored "react-server-dom-turbopack-server-node"

/-! ## Concrete inputs used by counterexamples and witnesses -/

/-- An oracle that always finds the `next` package. -/
def oracleConst : Oracle := fun _ => some "/project/node_modules/next"

/-- An oracle that never finds the `next` package. -/
def oracleNone : Oracle := fun _ => none

/-- A user alias remapping `react` to a local file, unconditioned. -/
def userReactAlias : UserAlias := ⟨.exact, "react", [(none, "./my-react")]⟩

/-- A user wildcard alias colliding with the internal virtual package
namespace prefix. -/
def userVirtualAlias : UserAlias :=
  ⟨.wildcard, VIRTUAL_PACKAGE_NAME ++ "/", [(none, "./custom/*")]⟩

/-- A user wildcard alias colliding with the embedded bundler-runtime helper
prefix. -/
def userRuntimeCollideAlias : UserAlias :=
  ⟨.wildcard, "@vercel/turbopack-ecmascript-runtime/", [(none, "./custom/*")]⟩

/-- A user alias whose only target is guarded by the `browser` condition. -/
def browserGuardedAlias : UserAlias :=
  ⟨.exact, "my-lib", [(some "browser", "./browser-impl")]⟩

/-! # Theorems -/

/-! ## Helper lemmas -/

theorem except_map_ok {α β : Type} (f : α → β) (a : α) :
    Except.map f (Except.ok a : Except String α) = .ok (f a) := rfl

theorem except_bind_ok {α β : Type} (a : α) (f : α → Except String β) :
    (Except.ok a : Except String α) >>= f = f a := rfl

theorem except_bind_err {α β : Type} (e : String) (f : α → Except String β) :
    (Except.error e : Except String α) >>= f = .error e := rfl

theorem exactLookup_append (a b : List AliasEntry) (s : String) :
    exactLookup (a ++ b) s = b.foldl (exactStep s) (exactLookup a s) := by
  simp [exactLookup, List.foldl_append]

theorem wildcardLookup_append (a b : List AliasEntry) (s : String) :
    wildcardLookup (a ++ b) s = b.foldl (wildStep s) (wildcardLookup a s) := by
  simp [wildcardLookup, List.foldl_append]

/-- If the trailing segment determines the exact lookup result regardless of
what precedes it, the lookup over the whole table gives that result. -/
theorem exactLookup_append_last {b : List AliasEntry} {s : String}
    {v : Option ImportMapping} (a : List AliasEntry)
    (h : ∀ init, b.foldl (exactStep s) init = v) :
    exactLookup (a ++ b) s = v := by
  rw [exactLookup_append]; exact h _

/-- If the trailing segment determines the wildcard lookup result regardless
of what precedes it, the lookup over the whole table gives that result. -/
theorem wildcardLookup_append_last {b : List AliasEntry} {s : String}
    {v : Option (String × ImportMapping)} (a : List AliasEntry)
    (h : ∀ init, b.foldl (wildStep s) init = v) :
    wildcardLookup (a ++ b) s = v := by
  rw [wildcardLookup_append]; exact h _

/-- If the trailing segment never touches the key, the exact lookup is decided
by the leading part. -/
theorem exactLookup_append_keep (a b : List AliasEntry) (s : String)
    (h : ∀ init, b.foldl (exactStep s) init = init) :
    exactLookup (a ++ b) s = exactLookup a s := by
  rw [exactLookup_append]; exact h _

/-- If the trailing segment never matches the specifier, the wildcard lookup
is decided by the leading part. -/
theorem wildcardLookup_append_keep (a b : List AliasEntry) (s : String)
    (h : ∀ init, b.foldl (wildStep s) init = init) :
    wildcardLookup (a ++ b) s = wildcardLookup a s := by
  rw [wildcardLookup_append]; exact h _

/-- Shape of the client map when the oracle finds the `next` package
everywhere: the pass results concatenated in source call order. -/
theorem clientMap_ok (g : Path → Path) (project_path : Path)
    (ty : ClientContextType) (mode : NextMode) (cfg : NextConfig) :
    getNextClientImportMap (fun p => some (g p)) project_path ty mode cfg
      = .ok (sharedAliasEntries (g project_path) project_path cfg mode
          ++ insertOptimizedModuleAliases project_path
          ++ insertAliasOption project_path ["browser"] cfg.aliasOptions
          ++ clientContextEntries project_path ty cfg.serverActions
          ++ clientServerOnlyEntries project_path
          ++ clientNodePolyfillEntries project_path ty
          ++ [turbopackDevEntry]) := rfl

/-- Shape of the server map for the AppSSR context under a successful
oracle. -/
theorem serverMap_ok_appSSR (g : Path → Path) (project_path app_dir : Path)
    (mode : NextMode) (cfg : NextConfig) :
    getNextServerImportMap (fun p => some (g p)) project_path (.appSSR app_dir)
        mode cfg
      = .ok (sharedAliasEntries (g project_path) project_path cfg mode
          ++ insertAliasOption project_path [] cfg.aliasOptions
          ++ [⟨.exact, "next/dist/server/require-hook", .External none⟩]
          ++ serverContextEntries project_path (.appSSR app_dir) cfg.serverActions
          ++ serverSpecialAliasEntries (g app_dir) project_path (.appSSR app_dir)
              .nodeJs cfg.serverActions) := rfl

/-- Shape of the server map for the AppRSC context under a successful
oracle. -/
theorem serverMap_ok_appRSC (g : Path → Path) (project_path app_dir : Path)
    (mode : NextMode) (cfg : NextConfig) :
    getNextServerImportMap (fun p => some (g p)) project_path (.appRSC app_dir)
        mode cfg
      = .ok (sharedAliasEntries (g project_path) project_path cfg mode
          ++ insertAliasOption project_path [] cfg.aliasOptions
          ++ [⟨.exact, "next/dist/server/require-hook", .External none⟩]
          ++ serverContextEntries project_path (.appRSC app_dir) cfg.serverActions
          ++ serverSpecialAliasEntries (g app_dir) project_path (.appRSC app_dir)
              .nodeJs cfg.serverActions) := rfl

/-- Shape of the server map for the AppRoute context under a successful
oracle. -/
theorem serverMap_ok_appRoute (g : Path → Path) (project_path app_dir : Path)
    (mode : NextMode) (cfg : NextConfig) :
    getNextServerImportMap (fun p => some (g p)) project_path (.appRoute app_dir)
        mode cfg
      = .ok (sharedAliasEntries (g project_path) project_path cfg mode
          ++ insertAliasOption project_path [] cfg.aliasOptions
          ++ [⟨.exact, "next/dist/server/require-hook", .External none⟩]
          ++ serverContextEntries project_path (.appRoute app_dir) cfg.serverActions
          ++ serverSpecialAliasEntries (g app_dir) project_path (.appRoute app_dir)
              .nodeJs cfg.serverActions) := rfl

/-- Shape of the server map for the Pages context under a successful
oracle. -/
theorem serverMap_ok_pages (g : Path → Path) (project_path pages_dir : Path)
    (mode : NextMode) (cfg : NextConfig) :
    getNextServerImportMap (fun p => some (g p)) project_path (.pages pages_dir)
        mode cfg
      = .ok (sharedAliasEntries (g project_path) project_path cfg mode
          ++ insertAliasOption project_path [] cfg.aliasOptions
          ++ [⟨.exact, "next/dist/server/require-hook", .External none⟩]
          ++ serverContextEntries project_path (.pages pages_dir) cfg.serverActions
          ++ serverSpecialAliasEntries project_path project_path (.pages pages_dir)
              .nodeJs cfg.serverActions) := rfl

/-- Shape of the server map for the PagesData context under a successful
oracle. -/
theorem serverMap_ok_pagesData (g : Path → Path) (project_path pages_dir : Path)
    (mode : NextMode) (cfg : NextConfig) :
    getNextServerImportMap (fun p => some (g p)) project_path (.pagesData pages_dir)
        mode cfg
      = .ok (sharedAliasEntries (g project_path) project_path cfg mode
          ++ insertAliasOption project_path [] cfg.aliasOptions
          ++ [⟨.exact, "next/dist/server/require-hook", .External none⟩]
          ++ serverContextEntries project_path (.pagesData pages_dir) cfg.serverActions
          ++ serverSpecialAliasEntries project_path project_path (.pagesData pages_dir)
              .nodeJs cfg.serverActions) := rfl

/-- Shape of the server map for the Middleware context under a successful
oracle. -/
theorem serverMap_ok_middleware (g : Path → Path) (project_path : Path)
    (mode : NextMode) (cfg : NextConfig) :
    getNextServerImportMap (fun p => some (g p)) project_path .middleware
        mode cfg
      = .ok (sharedAliasEntries (g project_path) project_path cfg mode
          ++ insertAliasOption project_path [] cfg.aliasOptions
          ++ [⟨.exact, "next/dist/server/require-hook", .External none⟩]
          ++ serverContextEntries project_path .middleware cfg.serverActions
          ++ serverSpecialAliasEntries project_path project_path .middleware
              .nodeJs cfg.serverActions) := rfl

/-- Shape of the edge map for the AppSSR context under a successful oracle. -/
theorem edgeMap_ok_appSSR (g : Path → Path) (project_path app_dir : Path)
    (mode : NextMode) (cfg : NextConfig) :
    getNextEdgeImportMap (fun p => some (g p)) project_path (.appSSR app_dir)
        mode cfg
      = .ok (edgeEsmWildcardEntries project_path
          ++ edgeEsmExactEntries project_path
          ++ sharedAliasEntries (g project_path) project_path cfg mode
          ++ insertOptimizedModuleAliases project_path
          ++ insertAliasOption project_path [] cfg.aliasOptions
          ++ edgeContextEntries project_path (.appSSR app_dir) cfg.serverActions
          ++ serverSpecialAliasEntries (g app_dir) project_path (.appSSR app_dir)
              .edge cfg.serverActions) := rfl

/-- Shape of the edge map for the AppRSC context under a successful oracle. -/
theorem edgeMap_ok_appRSC (g : Path → Path) (project_path app_dir : Path)
    (mode : NextMode) (cfg : NextConfig) :
    getNextEdgeImportMap (fun p => some (g p)) project_path (.appRSC app_dir)
        mode cfg
      = .ok (edgeEsmWildcardEntries project_path
          ++ edgeEsmExactEntries project_path
          ++ sharedAliasEntries (g project_path) project_path cfg mode
          ++ insertOptimizedModuleAliases project_path
          ++ insertAliasOption project_path [] cfg.aliasOptions
          ++ edgeContextEntries project_path (.appRSC app_dir) cfg.serverActions
          ++ serverSpecialAliasEntries (g app_dir) project_path (.appRSC app_dir)
              .edge cfg.serverActions) := rfl

/-- Shape of the edge map for the AppRoute context under a successful
oracle. -/
theorem edgeMap_ok_appRoute (g : Path → Path) (project_path app_dir : Path)
    (mode : NextMode) (cfg : NextConfig) :
    getNextEdgeImportMap (fun p => some (g p)) project_path (.appRoute app_dir)
        mode cfg
      = .ok (edgeEsmWildcardEntries project_path
          ++ edgeEsmExactEntries project_path
          ++ sharedAliasEntries (g project_path) project_path cfg mode
          ++ insertOptimizedModuleAliases project_path
          ++ insertAliasOption project_path [] cfg.aliasOptions
          ++ edgeContextEntries project_path (.appRoute app_dir) cfg.serverActions
          ++ serverSpecialAliasEntries (g app_dir) project_path (.appRoute app_dir)
              .edge cfg.serverActions) := rfl

/-- Shape of the edge map for the Pages context under a successful oracle. -/
theorem edgeMap_ok_pages (g : Path → Path) (project_path pages_dir : Path)
    (mode : NextMode) (cfg : NextConfig) :
    getNextEdgeImportMap (fun p => some (g p)) project_path (.pages pages_dir)
        mode cfg
      = .ok (edgeEsmWildcardEntries project_path
          ++ edgeEsmExactEntries project_path
          ++ sharedAliasEntries (g project_path) project_path cfg mode
          ++ insertOptimizedModuleAliases project_path
          ++ insertAliasOption project_path [] cfg.aliasOptions
          ++ edgeContextEntries project_path (.pages pages_dir) cfg.serverActions
          ++ serverSpecialAliasEntries project_path project_path (.pages pages_dir)
              .edge cfg.serverActions) := rfl

/-- Shape of the edge map for the PagesData context under a successful
oracle. -/
theorem edgeMap_ok_pagesData (g : Path → Path) (project_path pages_dir : Path)
    (mode : NextMode) (cfg : NextConfig) :
    getNextEdgeImportMap (fun p => some (g p)) project_path (.pagesData pages_dir)
        mode cfg
      = .ok (edgeEsmWildcardEntries project_path
          ++ edgeEsmExactEntries project_path
          ++ sharedAliasEntries (g project_path) project_path cfg mode
          ++ insertOptimizedModuleAliases project_path
          ++ insertAliasOption project_path [] cfg.aliasOptions
          ++ edgeContextEntries project_path (.pagesData pages_dir) cfg.serverActions
          ++ serverSpecialAliasEntries project_path project_path (.pagesData pages_dir)
              .edge cfg.serverActions) := rfl

/-- Shape of the edge map for the Middleware context under a successful
oracle. -/
theorem edgeMap_ok_middleware (g : Path → Path) (project_path : Path)
    (mode : NextMode) (cfg : NextConfig) :
    getNextEdgeImportMap (fun p => some (g p)) project_path .middleware
        mode cfg
      = .ok (edgeEsmWildcardEntries project_path
          ++ edgeEsmExactEntries project_path
          ++ sharedAliasEntries (g project_path) project_path cfg mode
          ++ insertOptimizedModuleAliases project_path
          ++ insertAliasOption project_path [] cfg.aliasOptions
          ++ edgeContextEntries project_path .middleware cfg.serverActions
          ++ serverSpecialAliasEntries project_path project_path .middleware
              .edge cfg.serverActions) := rfl

/-- C1: in every App-routing server context (AppSSR, AppRSC, AppRoute), for
every build mode and both values of the server-actions flag, the alias the
published table resolves `react` to — and likewise its jsx-runtime entry
points and the react-server-dom streaming entries inserted by the
runtime-specific pass — is given by the pure selection matrix
`selectReactVariant` of the runtime target and the server-actions flag: the
`-experimental` compiled variant for Edge with server actions, the standard
compiled variant for Edge without, and the vendored route-modules variant
(ssr phase for AppSSR, rsc phase for AppRSC/AppRoute) for Node.js regardless
of the flag.  The server map builds for the Node.js runtime and the edge map
for the Edge runtime. -/
theorem c1_selection_matrix (g : Path → Path) (project_path app_dir : Path)
    (mode : NextMode) (sa mdx : Bool) :
    ((getNextServerImportMap (fun p => some (g p)) project_path (.appSSR app_dir)
        mode ⟨sa, mdx, []⟩).map
      (fun m => (exactLookup m "react", exactLookup m "react/jsx-runtime",
        exactLookup m "react/jsx-dev-runtime",
        exactLookup m "react-server-dom-webpack/client.edge",
        exactLookup m "react-server-dom-turbopack/client.edge"))
      = .ok (some (requestToImportMapping app_dir (selectReactVariant .react .ssr .nodeJs sa)),
          some (requestToImportMapping app_dir (selectReactVariant .jsxRuntime .ssr .nodeJs sa)),
          some (requestToImportMapping app_dir (selectReactVariant .jsxDevRuntime .ssr .nodeJs sa)),
          some (requestToImportMapping app_dir (selectReactVariant .streamClientEdge .ssr .nodeJs sa)),
          some (requestToImportMapping app_dir (selectReactVariant .streamClientEdge .ssr .nodeJs sa))))
    ∧ ((getNextEdgeImportMap (fun p => some (g p)) project_path (.appSSR app_dir)
        mode ⟨sa, mdx, []⟩).map
      (fun m => (exactLookup m "react", exactLookup m "react/jsx-runtime",
        exactLookup m "react/jsx-dev-runtime",
        exactLookup m "react-server-dom-webpack/client.edge",
        exactLookup m "react-server-dom-turbopack/client.edge"))
      = .ok (some (requestToImportMapping app_dir (selectReactVariant .react .ssr .edge sa)),
          some (requestToImportMapping app_dir (selectReactVariant .jsxRuntime .ssr .edge sa)),
          some (requestToImportMapping app_dir (selectReactVariant .jsxDevRuntime .ssr .edge sa)),
          some (requestToImportMapping app_dir (selectReactVariant .streamClientEdge .ssr .edge sa)),
          some (requestToImportMapping app_dir (selectReactVariant .streamClientEdge .ssr .edge sa))))
    ∧ ((getNextServerImportMap (fun p => some (g p)) project_path (.appRSC app_dir)
        mode ⟨sa, mdx, []⟩).map
      (fun m => (exactLookup m "react", exactLookup m "react/jsx-runtime",
        exactLookup m "react/jsx-dev-runtime",
        exactLookup m "react-server-dom-webpack/server.edge",
        exactLookup m "react-server-dom-turbopack/server.edge",
        exactLookup m "react-server-dom-webpack/server.node",
        exactLookup m "react-server-dom-turbopack/server.node"))
      = .ok (some (requestToImportMapping app_dir (selectReactVariant .react .rsc .nodeJs sa)),
          some (requestToImportMapping app_dir (selectReactVariant .jsxRuntime .rsc .nodeJs sa)),
          some (requestToImportMapping app_dir (selectReactVariant .jsxDevRuntime .rsc .nodeJs sa)),
          some (requestToImportMapping app_dir (selectReactVariant .streamServerEdge .rsc .nodeJs sa)),
          some (requestToImportMapping app_dir (selectReactVariant .streamServerEdge .rsc .nodeJs sa)),
          some (requestToImportMapping app_dir (selectReactVariant .streamServerNode .rsc .nodeJs sa)),
          some (requestToImportMapping app_dir (selectReactVariant .streamServerNode .rsc .nodeJs sa))))
    ∧ ((getNextEdgeImportMap (fun p => some (g p)) project_path (.appRSC app_dir)
        mode ⟨sa, mdx, []⟩).map
      (fun m => (exactLookup m "react", exactLookup m "react/jsx-runtime",
        exactLookup m "react/jsx-dev-runtime",
        exactLookup m "react-server-dom-webpack/server.edge",
        exactLookup m "react-server-dom-turbopack/server.edge",
        exactLookup m "react-server-dom-webpack/server.node",
        exactLookup m "react-server-dom-turbopack/server.node"))
      = .ok (some (requestToImportMapping app_dir (selectReactVariant .react .rsc .edge sa)),
          some (requestToImportMapping app_dir (selectReactVariant .jsxRuntime .rsc .edge sa)),
          some (requestToImportMapping app_dir (selectReactVariant .jsxDevRuntime .rsc .edge sa)),
          some (requestToImportMapping app_dir (selectReactVariant .streamServerEdge .rsc .edge sa)),
          some (requestToImportMapping app_dir (selectReactVariant .streamServerEdge .rsc .edge sa)),
          some (requestToImportMapping app_dir (selectReactVariant .streamServerNode .rsc .edge sa)),
          some (requestToImportMapping app_dir (selectReactVariant .streamServerNode .rsc .edge sa))))
    ∧ ((getNextServerImportMap (fun p => some (g p)) project_path (.appRoute app_dir)
        mode ⟨sa, mdx, []⟩).map
      (fun m => (exactLookup m "react", exactLookup m "react/jsx-runtime",
        exactLookup m "react/jsx-dev-runtime",
        exactLookup m "react-server-dom-webpack/server.edge",
        exactLookup m "react-server-dom-turbopack/server.edge",
        exactLookup m "react-server-dom-webpack/server.node",
        exactLookup m "react-server-dom-turbopack/server.node"))
      = .ok (some (requestToImportMapping app_dir (selectReactVariant .react .rsc .nodeJs sa)),
          some (requestToImportMapping app_dir (selectReactVariant .jsxRuntime .rsc .nodeJs sa)),
          some (requestToImportMapping app_dir (selectReactVariant .jsxDevRuntime .rsc .nodeJs sa)),
          some (requestToImportMapping app_dir (selectReactVariant .streamServerEdge .rsc .nodeJs sa)),
          some (requestToImportMapping app_dir (selectReactVariant .streamServerEdge .rsc .nodeJs sa)),
          some (requestToImportMapping app_dir (selectReactVariant .streamServerNode .rsc .nodeJs sa)),
          some (requestToImportMapping app_dir (selectReactVariant .streamServerNode .rsc .nodeJs sa))))
    ∧ ((getNextEdgeImportMap (fun p => some (g p)) project_path (.appRoute app_dir)
        mode ⟨sa, mdx, []⟩).map
      (fun m => (exactLookup m "react", exactLookup m "react/jsx-runtime",
        exactLookup m "react/jsx-dev-runtime",
        exactLookup m "react-server-dom-webpack/server.edge",
        exactLookup m "react-server-dom-turbopack/server.edge",
        exactLookup m "react-server-dom-webpack/server.node",
        exactLookup m "react-server-dom-turbopack/server.node"))
      = .ok (some (requestToImportMapping app_dir (selectReactVariant .react .rsc .edge sa)),
          some (requestToImportMapping app_dir (selectReactVariant .jsxRuntime .rsc .edge sa)),
          some (requestToImportMapping app_dir (selectReactVariant .jsxDevRuntime .rsc .edge sa)),
          some (requestToImportMapping app_dir (selectReactVariant .streamServerEdge .rsc .edge sa)),
          some (requestToImportMapping app_dir (selectReactVariant .streamServerEdge .rsc .edge sa)),
          some (requestToImportMapping app_dir (selectReactVariant .streamServerNode .rsc .edge sa)),
          some (requestToImportMapping app_dir (selectReactVariant .streamServerNode .rsc .edge sa)))) := by
  refine ⟨?_, ?_, ?_, ?_, ?_, ?_⟩
  · rw [serverMap_ok_appSSR]
    simp only [except_map_ok, Except.ok.injEq, Prod.mk.injEq]
    exact ⟨exactLookup_append_last _ fun init => rfl,
      exactLookup_append_last _ fun init => rfl,
      exactLookup_append_last _ fun init => rfl,
      exactLookup_append_last _ fun init => rfl,
      exactLookup_append_last _ fun init => rfl⟩
  · rw [edgeMap_ok_appSSR]
    cases sa <;>
    · simp only [except_map_ok, Except.ok.injEq, Prod.mk.injEq]
      exact ⟨exactLookup_append_last _ fun init => rfl,
        exactLookup_append_last _ fun init => rfl,
        exactLookup_append_last _ fun init => rfl,
        exactLookup_append_last _ fun init => rfl,
        exactLookup_append_last _ fun init => rfl⟩
  · rw [serverMap_ok_appRSC]
    simp only [except_map_ok, Except.ok.injEq, Prod.mk.injEq]
    exact ⟨exactLookup_append_last _ fun init => rfl,
      exactLookup_append_last _ fun init => rfl,
      exactLookup_append_last _ fun init => rfl,
      exactLookup_append_last _ fun init => rfl,
      exactLookup_append_last _ fun init => rfl,
      exactLookup_append_last _ fun init => rfl,
      exactLookup_append_last _ fun init => rfl⟩
  · rw [edgeMap_ok_appRSC]
    cases sa <;>
    · simp only [except_map_ok, Except.ok.injEq, Prod.mk.injEq]
      exact ⟨exactLookup_append_last _ fun init => rfl,
        exactLookup_append_last _ fun init => rfl,
        exactLookup_append_last _ fun init => rfl,
        exactLookup_append_last _ fun init => rfl,
        exactLookup_append_last _ fun init => rfl,
        exactLookup_append_last _ fun init => rfl,
        exactLookup_append_last _ fun init => rfl⟩
  · rw [serverMap_ok_appRoute]
    simp only [except_map_ok, Except.ok.injEq, Prod.mk.injEq]
    exact ⟨exactLookup_append_last _ fun init => rfl,
      exactLookup_append_last _ fun init => rfl,
      exactLookup_append_last _ fun init => rfl,
      exactLookup_append_last _ fun init => rfl,
      exactLookup_append_last _ fun init => rfl,
      exactLookup_append_last _ fun init => rfl,
      exactLookup_append_last _ fun init => rfl⟩
  · rw [edgeMap_ok_appRoute]
    cases sa <;>
    · simp only [except_map_ok, Except.ok.injEq, Prod.mk.injEq]
      exact ⟨exactLookup_append_last _ fun init => rfl,
        exactLookup_append_last _ fun init => rfl,
        exactLookup_append_last _ fun init => rfl,
        exactLookup_append_last _ fun init => rfl,
        exactLookup_append_last _ fun init => rfl,
        exactLookup_append_last _ fun init => rfl,
        exactLookup_append_last _ fun init => rfl⟩

/-- C2 counterexample: the claim that a user-supplied alias always wins over
every framework layer is false.  In the App client context with the user alias
`react -> ./my-react`, the published table resolves `react` to the framework's
compiled react (the routing-style-specific pass runs after the user pass and
overwrites it), not to the user's target. -/
theorem c2_counterexample :
    (getNextClientImportMap oracleConst "/project" (.app "/project/app")
        .development ⟨false, false, [userReactAlias]⟩).map
      (fun m => exactLookup m "react")
      = .ok (some (requestToImportMapping "/project/app" "next/dist/compiled/react"))
    ∧ requestToImportMapping "/project/app" "next/dist/compiled/react"
        ≠ .PrimaryAlternative "./my-react" (some "/project") := by
  constructor
  · rfl
  · intro h
    injection h with h1 h2
    exact absurd h1 (by decide)

/-- C2 amended: a user alias overrides every framework layer inserted before
it — the shared defaults (including the singleton pins and, outside
development mode, the dev-overlay replacement) and the optimized-module
aliases — so in the Pages client context a user alias for `react` wins; but
the routing-style-specific, `server-only`/`client-only`, polyfill and
turbopack-dev passes run after the user pass, so patterns they insert (such as
`react` in the App client context, see the counterexample) beat a colliding
user alias. -/
theorem c2_user_aliases_override_earlier_layers (g : Path → Path)
    (project_path pages_dir : Path) (mode : NextMode) (sa mdx : Bool) (t : String) :
    ((getNextClientImportMap (fun p => some (g p)) project_path (.pages pages_dir)
        mode ⟨sa, mdx, [⟨.exact, "react", [(none, t)]⟩]⟩).map
      (fun m => exactLookup m "react")
      = .ok (some (.PrimaryAlternative t (some project_path))))
    ∧ ((getNextClientImportMap (fun p => some (g p)) project_path (.pages pages_dir)
        .build ⟨sa, mdx,
          [⟨.exact, "next/dist/compiled/@next/react-dev-overlay/dist/client",
            [(none, t)]⟩]⟩).map
      (fun m => exactLookup m "next/dist/compiled/@next/react-dev-overlay/dist/client")
      = .ok (some (.PrimaryAlternative t (some project_path)))) := by
  constructor
  · rw [clientMap_ok]
    simp only [except_map_ok, Except.ok.injEq]
    rw [exactLookup_append, exactLookup_append, exactLookup_append,
      exactLookup_append, exactLookup_append]
    rfl
  · rw [clientMap_ok]
    simp only [except_map_ok, Except.ok.injEq]
    rw [exactLookup_append, exactLookup_append, exactLookup_append,
      exactLookup_append, exactLookup_append]
    rfl

/-- C3 counterexample: the claim that the internal virtual-package-namespace
wildcard prefix is re-inserted after the user alias layer (and so survives a
colliding user alias) is false in the client map: the virtual namespace alias
is only inserted by the shared pass, which runs before the user pass, so a
colliding user wildcard alias changes the published target. -/
theorem c3_counterexample :
    ((getNextClientImportMap oracleConst "/project" .other .development
        ⟨false, false, [userVirtualAlias]⟩).map
      (fun m => lookup m "@vercel/turbopack-next/foo")
      = .ok (some (.PrimaryAlternative "./custom/foo" (some "/project"))))
    ∧ ((getNextClientImportMap oracleConst "/project" .other .development
        ⟨false, false, []⟩).map
      (fun m => lookup m "@vercel/turbopack-next/foo")
      = .ok (some (.PrimaryAlternative "./foo" (some nextJsRoot))))
    ∧ (ImportMapping.PrimaryAlternative "./custom/foo" (some "/project")
        ≠ .PrimaryAlternative "./foo" (some nextJsRoot)) := by
  refine ⟨rfl, rfl, ?_⟩
  intro h
  injection h with h1 h2
  exact absurd h1 (by decide)

set_option maxHeartbeats 1600000 in
/-- C3 amended: only the embedded bundler-runtime helper prefix
`@vercel/turbopack-ecmascript-runtime/` is re-inserted after the user alias
layer, and only in the client map; there a colliding user wildcard alias for
the same prefix does not change the published target.  The virtual-package
namespace prefix and the dev-overlay replacement are inserted before the user
layer only, so colliding user aliases do override them (see the
counterexample). -/
theorem c3_turbopack_dev_alias_survives_collision (g : Path → Path)
    (project_path : Path) (mode : NextMode) (sa mdx : Bool) (t : String) :
    (getNextClientImportMap (fun p => some (g p)) project_path .other mode
        ⟨sa, mdx,
          [⟨.wildcard, "@vercel/turbopack-ecmascript-runtime/", [(none, t)]⟩]⟩).map
      (fun m => lookup m "@vercel/turbopack-ecmascript-runtime/foo.ts")
      = .ok (some (.PrimaryAlternative "./foo.ts" (some ecmascriptRuntimeRoot))) := by
  rw [clientMap_ok]
  cases mode <;> cases mdx <;> rfl

/-- C4: table construction is deterministic.  The embedding makes every pass a
pure function of the `LayerContext` and the user alias configuration, so
running any of the three constructions twice on identical inputs yields
structurally identical tables; and the user alias entries are processed one by
one in their declared list order (the head entry's insertions precede those of
the tail, with no reordering). -/
theorem c4_construction_deterministic (o : Oracle) (project_path : Path)
    (cty : ClientContextType) (sty : ServerContextType) (mode : NextMode)
    (cfg : NextConfig) (conds : List String) (e : UserAlias)
    (rest : List UserAlias) :
    (getNextClientImportMap o project_path cty mode cfg
      = getNextClientImportMap o project_path cty mode cfg)
    ∧ (getNextServerImportMap o project_path sty mode cfg
      = getNextServerImportMap o project_path sty mode cfg)
    ∧ (getNextEdgeImportMap o project_path sty mode cfg
      = getNextEdgeImportMap o project_path sty mode cfg)
    ∧ (insertAliasOption project_path conds (e :: rest)
      = insertAliasOption project_path conds [e]
        ++ insertAliasOption project_path conds rest) := by
  refine ⟨rfl, rfl, rfl, ?_⟩
  cases h : exportValueToImportMapping e.targets conds project_path <;>
    simp [insertAliasOption, h]

/-- C5: in the Pages routing contexts, both the client map and the (Node.js)
server map alias each virtual page-level special file to an alternatives chain
whose first element is the project-local override in the pages directory and
whose second is the framework-provided default (`next/app`, `next/document`,
`next/error`; resolved in the pages directory on the client, left external on
the Node.js server), so the local file is tried first. -/
theorem c5_pages_special_file_alternatives (g : Path → Path)
    (project_path pages_dir : Path) (mode : NextMode) (sa mdx : Bool) :
    ((getNextClientImportMap (fun p => some (g p)) project_path (.pages pages_dir)
        mode ⟨sa, mdx, []⟩).map
      (fun m => (exactLookup m (VIRTUAL_PACKAGE_NAME ++ "/pages/_app"),
        exactLookup m (VIRTUAL_PACKAGE_NAME ++ "/pages/_document"),
        exactLookup m (VIRTUAL_PACKAGE_NAME ++ "/pages/_error")))
      = .ok (some (.Alternatives [requestToImportMapping pages_dir "./_app",
              requestToImportMapping pages_dir "next/app"]),
          some (.Alternatives [requestToImportMapping pages_dir "./_document",
              requestToImportMapping pages_dir "next/document"]),
          some (.Alternatives [requestToImportMapping pages_dir "./_error",
              requestToImportMapping pages_dir "next/error"])))
    ∧ ((getNextServerImportMap (fun p => some (g p)) project_path (.pages pages_dir)
        mode ⟨sa, mdx, []⟩).map
      (fun m => (exactLookup m (VIRTUAL_PACKAGE_NAME ++ "/pages/_app"),
        exactLookup m (VIRTUAL_PACKAGE_NAME ++ "/pages/_document"),
        exactLookup m (VIRTUAL_PACKAGE_NAME ++ "/pages/_error")))
      = .ok (some (.Alternatives [requestToImportMapping pages_dir "./_app",
              externalRequestToImportMapping "next/app"]),
          some (.Alternatives [requestToImportMapping pages_dir "./_document",
              externalRequestToImportMapping "next/document"]),
          some (.Alternatives [requestToImportMapping pages_dir "./_error",
              externalRequestToImportMapping "next/error"]))) := by
  constructor
  · rw [clientMap_ok]
    simp only [except_map_ok, Except.ok.injEq, Prod.mk.injEq]
    refine ⟨?_, ?_, ?_⟩ <;>
    · rw [exactLookup_append, exactLookup_append, exactLookup_append,
        exactLookup_append]
      rfl
  · rw [serverMap_ok_pages]
    simp only [except_map_ok, Except.ok.injEq, Prod.mk.injEq]
    exact ⟨exactLookup_append_last _ fun init => rfl,
      exactLookup_append_last _ fun init => rfl,
      exactLookup_append_last _ fun init => rfl⟩

/-- C6: construction fails exactly when `get_next_package` cannot locate the
`next` package from the relevant base directory — the project path (and, for
App server/edge contexts, the app directory) — in which case the error is
"Next.js package not found"; and the construction consults the oracle for
nothing else, so its result depends only on the oracle's answers at those base
directories and the existence of other aliased targets is never checked.  The
iff is stated for the client map (every context), and for the server and edge
maps in each of their six routing contexts. -/
theorem c6_failure_semantics (o : Oracle) (project_path pages_dir app_dir : Path)
    (cty : ClientContextType) (mode : NextMode) (cfg : NextConfig) :
    ((∃ m, getNextClientImportMap o project_path cty mode cfg = .ok m)
      ↔ (o project_path).isSome)
    ∧ (o project_path = none →
        getNextClientImportMap o project_path cty mode cfg
          = .error "Next.js package not found")
    ∧ ((∃ m, getNextServerImportMap o project_path (.appSSR app_dir) mode cfg = .ok m)
      ↔ ((o project_path).isSome ∧ (o app_dir).isSome))
    ∧ ((∃ m, getNextServerImportMap o project_path (.pages pages_dir) mode cfg = .ok m)
      ↔ (o project_path).isSome)
    ∧ (∀ o₂ : Oracle, o₂ project_path = o project_path →
        getNextClientImportMap o₂ project_path cty mode cfg
          = getNextClientImportMap o project_path cty mode cfg)
    ∧ (∀ o₂ : Oracle, o₂ project_path = o project_path → o₂ app_dir = o app_dir →
        getNextServerImportMap o₂ project_path (.appSSR app_dir) mode cfg
          = getNextServerImportMap o project_path (.appSSR app_dir) mode cfg)
    ∧ ((∃ m, getNextServerImportMap o project_path (.appRSC app_dir) mode cfg = .ok m)
      ↔ ((o project_path).isSome ∧ (o app_dir).isSome))
    ∧ ((∃ m, getNextServerImportMap o project_path (.appRoute app_dir) mode cfg = .ok m)
      ↔ ((o project_path).isSome ∧ (o app_dir).isSome))
    ∧ ((∃ m, getNextServerImportMap o project_path (.pagesData pages_dir) mode cfg = .ok m)
      ↔ (o project_path).isSome)
    ∧ ((∃ m, getNextServerImportMap o project_path .middleware mode cfg = .ok m)
      ↔ (o project_path).isSome)
    ∧ ((∃ m, getNextEdgeImportMap o project_path (.appSSR app_dir) mode cfg = .ok m)
      ↔ ((o project_path).isSome ∧ (o app_dir).isSome))
    ∧ ((∃ m, getNextEdgeImportMap o project_path (.appRSC app_dir) mode cfg = .ok m)
      ↔ ((o project_path).isSome ∧ (o app_dir).isSome))
    ∧ ((∃ m, getNextEdgeImportMap o project_path (.appRoute app_dir) mode cfg = .ok m)
      ↔ ((o project_path).isSome ∧ (o app_dir).isSome))
    ∧ ((∃ m, getNextEdgeImportMap o project_path (.pages pages_dir) mode cfg = .ok m)
      ↔ (o project_path).isSome)
    ∧ ((∃ m, getNextEdgeImportMap o project_path (.pagesData pages_dir) mode cfg = .ok m)
      ↔ (o project_path).isSome)
    ∧ ((∃ m, getNextEdgeImportMap o project_path .middleware mode cfg = .ok m)
      ↔ (o project_path).isSome)
    ∧ (o project_path = none →
        getNextEdgeImportMap o project_path (.pages pages_dir) mode cfg
          = .error "Next.js package not found")
    ∧ (∀ o₂ : Oracle, o₂ project_path = o project_path → o₂ app_dir = o app_dir →
        getNextEdgeImportMap o₂ project_path (.appSSR app_dir) mode cfg
          = getNextEdgeImportMap o project_path (.appSSR app_dir) mode cfg) := by
  refine ⟨?_, ?_, ?_, ?_, ?_, ?_, ?_, ?_, ?_, ?_, ?_, ?_, ?_, ?_, ?_, ?_, ?_, ?_⟩
  · cases h : o project_path <;>
      simp [getNextClientImportMap, insertNextSharedAliases, getNextPackage, h,
        except_bind_ok, except_bind_err]
  · intro h
    simp [getNextClientImportMap, insertNextSharedAliases, getNextPackage, h,
      except_bind_ok, except_bind_err]
  · cases h1 : o project_path <;> cases h2 : o app_dir <;>
      simp [getNextServerImportMap, insertNextSharedAliases,
        insertNextServerSpecialAliases, getNextPackage, h1, h2,
        except_bind_ok, except_bind_err]
  · cases h : o project_path <;>
      simp [getNextServerImportMap, insertNextSharedAliases,
        insertNextServerSpecialAliases, getNextPackage, h,
        except_bind_ok, except_bind_err]
  · intro o₂ h
    simp [getNextClientImportMap, insertNextSharedAliases, getNextPackage, h,
      except_bind_ok, except_bind_err]
  · intro o₂ h1 h2
    simp [getNextServerImportMap, insertNextSharedAliases,
      insertNextServerSpecialAliases, getNextPackage, h1, h2,
      except_bind_ok, except_bind_err]
  · cases h1 : o project_path <;> cases h2 : o app_dir <;>
      simp [getNextServerImportMap, insertNextSharedAliases,
        insertNextServerSpecialAliases, getNextPackage, h1, h2,
        except_bind_ok, except_bind_err]
  · cases h1 : o project_path <;> cases h2 : o app_dir <;>
      simp [getNextServerImportMap, insertNextSharedAliases,
        insertNextServerSpecialAliases, getNextPackage, h1, h2,
        except_bind_ok, except_bind_err]
  · cases h : o project_path <;>
      simp [getNextServerImportMap, insertNextSharedAliases,
        insertNextServerSpecialAliases, getNextPackage, h,
        except_bind_ok, except_bind_err]
  · cases h : o project_path <;>
      simp [getNextServerImportMap, insertNextSharedAliases,
        insertNextServerSpecialAliases, getNextPackage, h,
        except_bind_ok, except_bind_err]
  · cases h1 : o project_path <;> cases h2 : o app_dir <;>
      simp [getNextEdgeImportMap, insertNextSharedAliases,
        insertNextServerSpecialAliases, getNextPackage, h1, h2,
        except_bind_ok, except_bind_err]
  · cases h1 : o project_path <;> cases h2 : o app_dir <;>
      simp [getNextEdgeImportMap, insertNextSharedAliases,
        insertNextServerSpecialAliases, getNextPackage, h1, h2,
        except_bind_ok, except_bind_err]
  · cases h1 : o project_path <;> cases h2 : o app_dir <;>
      simp [getNextEdgeImportMap, insertNextSharedAliases,
        insertNextServerSpecialAliases, getNextPackage, h1, h2,
        except_bind_ok, except_bind_err]
  · cases h : o project_path <;>
      simp [getNextEdgeImportMap, insertNextSharedAliases,
        insertNextServerSpecialAliases, getNextPackage, h,
        except_bind_ok, except_bind_err]
  · cases h : o project_path <;>
      simp [getNextEdgeImportMap, insertNextSharedAliases,
        insertNextServerSpecialAliases, getNextPackage, h,
        except_bind_ok, except_bind_err]
  · cases h : o project_path <;>
      simp [getNextEdgeImportMap, insertNextSharedAliases,
        insertNextServerSpecialAliases, getNextPackage, h,
        except_bind_ok, except_bind_err]
  · intro h
    simp [getNextEdgeImportMap, insertNextSharedAliases,
      insertNextServerSpecialAliases, getNextPackage, h,
      except_bind_ok, except_bind_err]
  · intro o₂ h1 h2
    simp [getNextEdgeImportMap, insertNextSharedAliases,
      insertNextServerSpecialAliases, getNextPackage, h1, h2,
      except_bind_ok, except_bind_err]

/-- C6 witness: with an oracle that never finds the `next` package, building
the client map fails with "Next.js package not found". -/
theorem c6_failure_semantics_witness :
    getNextClientImportMap oracleNone "/project" .other .development
        ⟨false, false, []⟩
      = .error "Next.js package not found" :=
  (c6_failure_semantics oracleNone "/project" "/project/pages" "/project/app"
    .other .development ⟨false, false, []⟩).2.1 rfl

/-- C7: the development-tooling hook replacements are inserted exactly outside
development mode: in all three import maps, for every routing context, the
exact alias from the compiled dev-overlay client to the embedded
`./overlay/client.ts` is present iff the mode is not Development, and the
resolved map contains the hot-reloader glob replacement
(`@vercel/turbopack-next/dev/hot-reloader.tsx`) iff the mode is not
Development. -/
theorem c7_dev_overlay_mode_conditional (g : Path → Path)
    (project_path context root : Path) (cty : ClientContextType)
    (sty : ServerContextType) (mode : NextMode) (sa mdx : Bool) :
    ((getNextClientImportMap (fun p => some (g p)) project_path cty mode
        ⟨sa, mdx, []⟩).map
      (fun m => exactLookup m "next/dist/compiled/@next/react-dev-overlay/dist/client")
      = .ok (if mode = NextMode.development then none
          else some (requestToImportMapping nextJsRoot "./overlay/client.ts")))
    ∧ ((getNextServerImportMap (fun p => some (g p)) project_path sty mode
        ⟨sa, mdx, []⟩).map
      (fun m => exactLookup m "next/dist/compiled/@next/react-dev-overlay/dist/client")
      = .ok (if mode = NextMode.development then none
          else some (requestToImportMapping nextJsRoot "./overlay/client.ts")))
    ∧ ((getNextEdgeImportMap (fun p => some (g p)) project_path sty mode
        ⟨sa, mdx, []⟩).map
      (fun m => exactLookup m "next/dist/compiled/@next/react-dev-overlay/dist/client")
      = .ok (if mode = NextMode.development then none
          else some (requestToImportMapping nextJsRoot "./overlay/client.ts")))
    ∧ (getNextClientResolvedMap context root mode
      = if mode = NextMode.development then []
        else [⟨context,
          "**/next/dist/client/components/react-dev-overlay/hot-reloader-client.js",
          .PrimaryAlternative "@vercel/turbopack-next/dev/hot-reloader.tsx"
            (some root)⟩])
    ∧ (mode ≠ NextMode.development ↔ getNextClientResolvedMap context root mode ≠ []) := by
  refine ⟨?_, ?_, ?_, rfl, ?_⟩
  · rw [clientMap_ok]
    simp only [except_map_ok, Except.ok.injEq]
    rw [exactLookup_append_keep, exactLookup_append_keep, exactLookup_append_keep,
      exactLookup_append_keep, exactLookup_append_keep, exactLookup_append_keep]
    · cases mode <;> cases mdx <;> rfl
    · intro i; rfl
    · intro i; rfl
    · intro i; cases cty <;> rfl
    · intro i; rfl
    · intro i; cases cty <;> rfl
    · intro i; rfl
  · cases sty
    case pages pages_dir =>
      rw [serverMap_ok_pages]
      simp only [except_map_ok, Except.ok.injEq]
      rw [exactLookup_append_keep, exactLookup_append_keep, exactLookup_append_keep,
        exactLookup_append_keep]
      · cases mode <;> cases mdx <;> rfl
      all_goals intro i; rfl
    case pagesData pages_dir =>
      rw [serverMap_ok_pagesData]
      simp only [except_map_ok, Except.ok.injEq]
      rw [exactLookup_append_keep, exactLookup_append_keep, exactLookup_append_keep,
        exactLookup_append_keep]
      · cases mode <;> cases mdx <;> rfl
      all_goals intro i; rfl
    case appSSR app_dir =>
      rw [serverMap_ok_appSSR]
      simp only [except_map_ok, Except.ok.injEq]
      rw [exactLookup_append_keep, exactLookup_append_keep, exactLookup_append_keep,
        exactLookup_append_keep]
      · cases mode <;> cases mdx <;> rfl
      all_goals intro i; rfl
    case appRSC app_dir =>
      rw [serverMap_ok_appRSC]
      simp only [except_map_ok, Except.ok.injEq]
      rw [exactLookup_append_keep, exactLookup_append_keep, exactLookup_append_keep,
        exactLookup_append_keep]
      · cases mode <;> cases mdx <;> rfl
      all_goals intro i; rfl
    case appRoute app_dir =>
      rw [serverMap_ok_appRoute]
      simp only [except_map_ok, Except.ok.injEq]
      rw [exactLookup_append_keep, exactLookup_append_keep, exactLookup_append_keep,
        exactLookup_append_keep]
      · cases mode <;> cases mdx <;> rfl
      all_goals intro i; rfl
    case middleware =>
      rw [serverMap_ok_middleware]
      simp only [except_map_ok, Except.ok.injEq]
      rw [exactLookup_append_keep, exactLookup_append_keep, exactLookup_append_keep,
        exactLookup_append_keep]
      · cases mode <;> cases mdx <;> rfl
      all_goals intro i; rfl
  · cases sty
    case pages pages_dir =>
      rw [edgeMap_ok_pages]
      simp only [except_map_ok, Except.ok.injEq]
      rw [exactLookup_append_keep, exactLookup_append_keep, exactLookup_append_keep,
        exactLookup_append_keep, exactLookup_append]
      · cases mode <;> cases mdx <;> rfl
      all_goals intro i; rfl
    case pagesData pages_dir =>
      rw [edgeMap_ok_pagesData]
      simp only [except_map_ok, Except.ok.injEq]
      rw [exactLookup_append_keep, exactLookup_append_keep, exactLookup_append_keep,
        exactLookup_append_keep, exactLookup_append]
      · cases mode <;> cases mdx <;> rfl
      all_goals intro i; rfl
    case appSSR app_dir =>
      rw [edgeMap_ok_appSSR]
      simp only [except_map_ok, Except.ok.injEq]
      rw [exactLookup_append_keep, exactLookup_append_keep, exactLookup_append_keep,
        exactLookup_append_keep, exactLookup_append]
      · cases mode <;> cases mdx <;> rfl
      all_goals intro i; rfl
    case appRSC app_dir =>
      rw [edgeMap_ok_appRSC]
      simp only [except_map_ok, Except.ok.injEq]
      rw [exactLookup_append_keep, exactLookup_append_keep, exactLookup_append_keep,
        exactLookup_append_keep, exactLookup_append]
      · cases mode <;> cases mdx <;> rfl
      all_goals intro i; rfl
    case appRoute app_dir =>
      rw [edgeMap_ok_appRoute]
      simp only [except_map_ok, Except.ok.injEq]
      rw [exactLookup_append_keep, exactLookup_append_keep, exactLookup_append_keep,
        exactLookup_append_keep, exactLookup_append]
      · cases mode <;> cases mdx <;> rfl
      all_goals intro i; rfl
    case middleware =>
      rw [edgeMap_ok_middleware]
      simp only [except_map_ok, Except.ok.injEq]
      rw [exactLookup_append_keep, exactLookup_append_keep, exactLookup_append_keep,
        exactLookup_append_keep, exactLookup_append]
      · cases mode <;> cases mdx <;> rfl
      all_goals intro i; rfl
  · cases mode <;> simp [getNextClientResolvedMap]

/-- C7 witness: in build mode the resolved map does contain the hot-reloader
replacement. -/
theorem c7_dev_overlay_mode_conditional_witness :
    getNextClientResolvedMap "/context" "/root" .build ≠ [] :=
  (c7_dev_overlay_mode_conditional (fun p => p) "/project" "/context" "/root"
    .other (.pages "/project/pages") .build false false).2.2.2.2.mp (by decide)

/-- C8: the edge map's wildcard block aliases the `next/dist/client/` prefix
to `next/dist/esm/client/*`: for every specifier extending that prefix the
winning wildcard entry is that alias, and whenever the exact registry has no
match the published lookup substitutes the unmatched suffix into the single
capture placeholder, yielding `next/dist/esm/client/` followed by the suffix;
in particular looking up `next/dist/client/link` yields
`next/dist/esm/client/link`. -/
theorem c8_edge_wildcard_substitution (g : Path → Path)
    (project_path pages_dir : Path) (mode : NextMode) (sa mdx : Bool) :
    (∀ rest : String,
      (getNextEdgeImportMap (fun p => some (g p)) project_path (.pages pages_dir)
          mode ⟨sa, mdx, []⟩).map
        (fun m => wildcardLookup m ("next/dist/client/" ++ rest))
        = .ok (some ("next/dist/client/",
            requestToImportMapping project_path "next/dist/esm/client/*")))
    ∧ (∀ rest : String,
      ((getNextEdgeImportMap (fun p => some (g p)) project_path (.pages pages_dir)
          mode ⟨sa, mdx, []⟩).map
        (fun m => exactLookup m ("next/dist/client/" ++ rest)) = .ok none) →
      (getNextEdgeImportMap (fun p => some (g p)) project_path (.pages pages_dir)
          mode ⟨sa, mdx, []⟩).map
        (fun m => lookup m ("next/dist/client/" ++ rest))
        = .ok (some (.PrimaryAlternative ("next/dist/esm/client/" ++ rest)
            (some project_path))))
    ∧ ((getNextEdgeImportMap (fun p => some (g p)) project_path (.pages pages_dir)
          mode ⟨sa, mdx, []⟩).map
        (fun m => lookup m "next/dist/client/link")
        = .ok (some (.PrimaryAlternative "next/dist/esm/client/link"
            (some project_path)))) := by
  have hsub : ∀ rest : String,
      substituteSuffix (requestToImportMapping project_path "next/dist/esm/client/*")
        (dropAfter "next/dist/client/" ("next/dist/client/" ++ rest))
        = .PrimaryAlternative ("next/dist/esm/client/" ++ rest) (some project_path) := by
    intro rest
    show ImportMapping.PrimaryAlternative
        (String.mk (replaceStar "next/dist/esm/client/*".data rest.data)) (some project_path)
      = .PrimaryAlternative ("next/dist/esm/client/" ++ rest) (some project_path)
    have : String.mk (replaceStar "next/dist/esm/client/*".data rest.data)
        = "next/dist/esm/client/" ++ rest := by
      show String.mk ('n' :: 'e' :: 'x' :: 't' :: '/' :: 'd' :: 'i' :: 's' :: 't' :: '/'
          :: 'e' :: 's' :: 'm' :: '/' :: 'c' :: 'l' :: 'i' :: 'e' :: 'n' :: 't' :: '/'
          :: (rest.data ++ [])) = "next/dist/esm/client/" ++ rest
      rw [List.append_nil]
      rfl
    rw [this]

  have hwild : ∀ rest : String,
      (getNextEdgeImportMap (fun p => some (g p)) project_path (.pages pages_dir)
          mode ⟨sa, mdx, []⟩).map
        (fun m => wildcardLookup m ("next/dist/client/" ++ rest))
        = .ok (some ("next/dist/client/",
            requestToImportMapping project_path "next/dist/esm/client/*")) := by
    intro rest
    rw [edgeMap_ok_pages]
    simp only [except_map_ok, Except.ok.injEq]
    cases mode <;> cases mdx <;> rfl
  refine ⟨hwild, ?_, ?_⟩
  · intro rest hnone
    rw [edgeMap_ok_pages] at hnone ⊢
    simp only [except_map_ok, Except.ok.injEq] at hnone ⊢
    have hw := hwild rest
    rw [edgeMap_ok_pages] at hw
    simp only [except_map_ok, Except.ok.injEq] at hw
    simp only [lookup, hnone, hw, hsub rest]
  · rw [edgeMap_ok_pages]
    simp only [except_map_ok, Except.ok.injEq]
    have hexact : exactLookup (edgeEsmWildcardEntries project_path
        ++ edgeEsmExactEntries project_path
        ++ sharedAliasEntries (g project_path) project_path ⟨sa, mdx, []⟩ mode
        ++ insertOptimizedModuleAliases project_path
        ++ insertAliasOption project_path [] ([] : List UserAlias)
        ++ edgeContextEntries project_path (.pages pages_dir) sa
        ++ serverSpecialAliasEntries project_path project_path (.pages pages_dir)
            .edge sa) "next/dist/client/link"
        = some (requestToImportMapping project_path "next/dist/esm/client/link") := by
      rw [exactLookup_append_keep, exactLookup_append_keep, exactLookup_append_keep,
        exactLookup_append_keep, exactLookup_append_keep]
      · rfl
      all_goals intro i
      all_goals first
        | rfl
        | (cases mode <;> cases mdx <;> rfl)
    simp only [lookup, hexact, requestToImportMapping]

/-- C8 witness: the concrete edge map substitutes the suffix `foo` into the
`next/dist/esm/client/*` capture. -/
theorem c8_edge_wildcard_substitution_witness :
    (getNextEdgeImportMap (fun p => some p) "/project" (.pages "/project/pages")
        .development ⟨false, false, []⟩).map
      (fun m => lookup m ("next/dist/client/" ++ "foo"))
      = .ok (some (.PrimaryAlternative ("next/dist/esm/client/" ++ "foo")
          (some "/project"))) :=
  (c8_edge_wildcard_substitution (fun p => p) "/project" "/project/pages"
    .development false false).2.1 "foo" (by rfl)

/-- C9: a user alias entry's conditioned targets are filtered against the
active condition set; with no survivor the entry yields no mapping and is
skipped entirely (the table is left as it was, so an earlier framework mapping
for the pattern stays in effect), a single survivor yields a direct
`PrimaryAlternative` mapping relative to the project path, and two or more
survivors yield an `Alternatives` chain preserving their declared order. -/
theorem c9_user_alias_filtering (project_path : Path) (conds : List String)
    (v : List (Option String × String)) (e : UserAlias)
    (rest : List UserAlias) :
    (activeTargets conds v = [] →
      exportValueToImportMapping v conds project_path = none)
    ∧ (∀ t, activeTargets conds v = [t] →
      exportValueToImportMapping v conds project_path
        = some (.PrimaryAlternative t (some project_path)))
    ∧ (∀ t₁ t₂ ts, activeTargets conds v = t₁ :: t₂ :: ts →
      exportValueToImportMapping v conds project_path
        = some (.Alternatives ((t₁ :: t₂ :: ts).map
            fun m => .PrimaryAlternative m (some project_path))))
    ∧ (exportValueToImportMapping e.targets conds project_path = none →
      insertAliasOption project_path conds (e :: rest)
        = insertAliasOption project_path conds rest)
    ∧ (∀ mp, exportValueToImportMapping e.targets conds project_path = some mp →
      insertAliasOption project_path conds (e :: rest)
        = ⟨e.kind, e.key, mp⟩ :: insertAliasOption project_path conds rest) := by
  refine ⟨?_, ?_, ?_, ?_, ?_⟩
  · intro h; simp [exportValueToImportMapping, h]
  · intro t h; simp [exportValueToImportMapping, h]
  · intro t₁ t₂ ts h; simp [exportValueToImportMapping, h]
  · intro h; simp [insertAliasOption, h]
  · intro mp h; simp [insertAliasOption, h]

/-- C9 witness: one unconditioned target survives the empty condition set and
becomes a direct mapping. -/
theorem c9_user_alias_filtering_witness :
    exportValueToImportMapping [(none, "./a")] [] "/project"
      = some (.PrimaryAlternative "./a" (some "/project")) :=
  (c9_user_alias_filtering "/project" [] [(none, "./a")]
    ⟨.exact, "x", []⟩ []).2.1 "./a" rfl

/-- C10: the client map resolves user aliases under the condition set
containing `browser` while the server and edge maps use the empty condition
set: a target guarded by the `browser` condition survives filtering exactly
when `browser` is in the active set, so a user alias entry whose only target
is browser-guarded takes effect in the client table and is absent from the
server and edge tables. -/
theorem c10_browser_condition_sets (g : Path → Path) (project_path : Path)
    (cty : ClientContextType) (sty : ServerContextType) (mode : NextMode)
    (sa mdx : Bool) (t : String) :
    (condTargetActive ["browser"] (some "browser", t) = true)
    ∧ (condTargetActive [] (some "browser", t) = false)
    ∧ ((getNextClientImportMap (fun p => some (g p)) project_path cty mode
        ⟨sa, mdx, [⟨.exact, "my-lib", [(some "browser", t)]⟩]⟩).map
      (fun m => exactLookup m "my-lib")
      = .ok (some (.PrimaryAlternative t (some project_path))))
    ∧ ((getNextServerImportMap (fun p => some (g p)) project_path sty mode
        ⟨sa, mdx, [⟨.exact, "my-lib", [(some "browser", t)]⟩]⟩).map
      (fun m => exactLookup m "my-lib")
      = .ok none)
    ∧ ((getNextEdgeImportMap (fun p => some (g p)) project_path sty mode
        ⟨sa, mdx, [⟨.exact, "my-lib", [(some "browser", t)]⟩]⟩).map
      (fun m => exactLookup m "my-lib")
      = .ok none) := by
  refine ⟨rfl, rfl, ?_, ?_, ?_⟩
  · rw [clientMap_ok]
    simp only [except_map_ok, Except.ok.injEq]
    rw [exactLookup_append_keep, exactLookup_append_keep, exactLookup_append_keep,
      exactLookup_append_keep, exactLookup_append]
    · rfl
    all_goals intro i
    all_goals first
      | rfl
      | (cases cty <;> rfl)
  · cases sty
    case pages pages_dir =>
      rw [serverMap_ok_pages]
      simp only [except_map_ok, Except.ok.injEq]
      rw [exactLookup_append_keep, exactLookup_append_keep, exactLookup_append_keep,
        exactLookup_append]
      · cases mode <;> cases mdx <;> rfl
      all_goals intro i; rfl
    case pagesData pages_dir =>
      rw [serverMap_ok_pagesData]
      simp only [except_map_ok, Except.ok.injEq]
      rw [exactLookup_append_keep, exactLookup_append_keep, exactLookup_append_keep,
        exactLookup_append]
      · cases mode <;> cases mdx <;> rfl
      all_goals intro i; rfl
    case appSSR app_dir =>
      rw [serverMap_ok_appSSR]
      simp only [except_map_ok, Except.ok.injEq]
      rw [exactLookup_append_keep, exactLookup_append_keep, exactLookup_append_keep,
        exactLookup_append]
      · cases mode <;> cases mdx <;> rfl
      all_goals intro i; rfl
    case appRSC app_dir =>
      rw [serverMap_ok_appRSC]
      simp only [except_map_ok, Except.ok.injEq]
      rw [exactLookup_append_keep, exactLookup_append_keep, exactLookup_append_keep,
        exactLookup_append]
      · cases mode <;> cases mdx <;> rfl
      all_goals intro i; rfl
    case appRoute app_dir =>
      rw [serverMap_ok_appRoute]
      simp only [except_map_ok, Except.ok.injEq]
      rw [exactLookup_append_keep, exactLookup_append_keep, exactLookup_append_keep,
        exactLookup_append]
      · cases mode <;> cases mdx <;> rfl
      all_goals intro i; rfl
    case middleware =>
      rw [serverMap_ok_middleware]
      simp only [except_map_ok, Except.ok.injEq]
      rw [exactLookup_append_keep, exactLookup_append_keep, exactLookup_append_keep,
        exactLookup_append]
      · cases mode <;> cases mdx <;> rfl
      all_goals intro i; rfl
  · cases sty
    case pages pages_dir =>
      rw [edgeMap_ok_pages]
      simp only [except_map_ok, Except.ok.injEq]
      rw [exactLookup_append_keep, exactLookup_append_keep, exactLookup_append_keep,
        exactLookup_append_keep, exactLookup_append]
      · cases mode <;> cases mdx <;> rfl
      all_goals intro i; rfl
    case pagesData pages_dir =>
      rw [edgeMap_ok_pagesData]
      simp only [except_map_ok, Except.ok.injEq]
      rw [exactLookup_append_keep, exactLookup_append_keep, exactLookup_append_keep,
        exactLookup_append_keep, exactLookup_append]
      · cases mode <;> cases mdx <;> rfl
      all_goals intro i; rfl
    case appSSR app_dir =>
      rw [edgeMap_ok_appSSR]
      simp only [except_map_ok, Except.ok.injEq]
      rw [exactLookup_append_keep, exactLookup_append_keep, exactLookup_append_keep,
        exactLookup_append_keep, exactLookup_append]
      · cases mode <;> cases mdx <;> rfl
      all_goals intro i; rfl
    case appRSC app_dir =>
      rw [edgeMap_ok_appRSC]
      simp only [except_map_ok, Except.ok.injEq]
      rw [exactLookup_append_keep, exactLookup_append_keep, exactLookup_append_keep,
        exactLookup_append_keep, exactLookup_append]
      · cases mode <;> cases mdx <;> rfl
      all_goals intro i; rfl
    case appRoute app_dir =>
      rw [edgeMap_ok_appRoute]
      simp only [except_map_ok, Except.ok.injEq]
      rw [exactLookup_append_keep, exactLookup_append_keep, exactLookup_append_keep,
        exactLookup_append_keep, exactLookup_append]
      · cases mode <;> cases mdx <;> rfl
      all_goals intro i; rfl
    case middleware =>
      rw [edgeMap_ok_middleware]
      simp only [except_map_ok, Except.ok.injEq]
      rw [exactLookup_append_keep, exactLookup_append_keep, exactLookup_append_keep,
        exactLookup_append_keep, exactLookup_append]
      · cases mode <;> cases mdx <;> rfl
      all_goals intro i; rfl

end NextImportMap
